import Mathlib

/-!
# HA Atrea Recuperation card: reconciler and command dispatcher

A shallow embedding of the logic of `HaAtreaRecuperationCard`
(`dist/ha-atrea-recuperation-card.js`): `setConfig`, `updated`, `_st`,
`_onSliderChange`, `_setTarget`, `_setHvacMode`, `_setFanPercentage`,
`_pressButton`, `_updateSliderBackground`, the animation duration of
`_renderFanControl` and the target computed by `render`, together with the
JavaScript value operations those methods rely on (`Number(..)`, `isNaN`,
truthiness, `||`, `??`, `===`, `!==`, `<`, `>`, `+`, `-`, `*`, `/`, `Math.max`,
object spread).

In the reconciler and the dispatcher, JavaScript numbers are represented by
`JSNum`: NaN, the two infinities and finite values.  Finite values are exact
rationals there: these methods only convert, compare and copy numbers.  The
arithmetic of `_updateSliderBackground` and `_renderFanControl` is done in `F64`,
IEEE 754 binary64 with rounding to nearest (ties to even), overflow, gradual
underflow and signed zeros.
-/

namespace AtreaCard

/-! ## JavaScript values -/

/-- A JavaScript number. -/
inductive JSNum where
  | nan
  | posInf
  | negInf
  | fin (q : ℚ)
  deriving DecidableEq

/-- A JavaScript value as it occurs in card configuration and entity data:
primitives, and arrays of strings (`sensors`, `buttons`). -/
inductive JSVal where
  | undefined
  | null
  | bool (b : Bool)
  | num (n : JSNum)
  | str (s : String)
  | list (items : List String)
  deriving DecidableEq

/-- A plain object, read as the map from a property name to the value of that
own property (`none`: the object has no such own property). -/
abbrev JSObj := String → Option JSVal

/-- An object literal `{ k1: v1, k2: v2, ... }` (a repeated key keeps the last
value, as in JavaScript). -/
def JSObj.ofList (entries : List (String × JSVal)) : JSObj :=
  fun k => (entries.reverse.find? (fun p => p.1 == k)).map Prod.snd

/-- The global `isNaN` applied to a number. -/
def JSNum.isNaN : JSNum → Bool
  | .nan => true
  | _ => false

/-- The relational `a < b` on numbers (false whenever NaN is involved). -/
def JSNum.lt : JSNum → JSNum → Bool
  | .nan, _ => false
  | _, .nan => false
  | .posInf, _ => false
  | _, .negInf => false
  | .negInf, _ => true
  | _, .posInf => true
  | .fin a, .fin b => decide (a < b)

/-- Number equality as used by `===`: NaN equals nothing. -/
def JSNum.eq : JSNum → JSNum → Bool
  | .nan, _ => false
  | _, .nan => false
  | a, b => decide (a = b)

/-- ToBoolean. -/
def truthy : JSVal → Bool
  | .undefined => false
  | .null => false
  | .bool b => b
  | .num .nan => false
  | .num (.fin q) => decide (q ≠ 0)
  | .num _ => true
  | .str s => decide (s ≠ "")
  | .list _ => true

/-- The operator `a || b`. -/
def jsOr (a b : JSVal) : JSVal := if truthy a then a else b

/-- The operator `a ?? b`. -/
def nullish (a b : JSVal) : JSVal :=
  match a with
  | .undefined => b
  | .null => b
  | _ => a

/-- The operator `a === b`.  Arrays compare by reference; two array values are
never taken to be the same reference. -/
def strictEq : JSVal → JSVal → Bool
  | .undefined, .undefined => true
  | .null, .null => true
  | .bool a, .bool b => a == b
  | .num a, .num b => JSNum.eq a b
  | .str a, .str b => decide (a = b)
  | _, _ => false

/-- The operator `a !== b`. -/
def strictNe (a b : JSVal) : Bool := !strictEq a b

/-- Property read `o.k` on a plain object (`undefined` when absent). -/
def getProp (o : JSObj) (k : String) : JSVal := (o k).getD .undefined

/-- Object spread `{ ...base, ...extra }`: own properties of `extra` override
those of `base`. -/
def spread (base extra : JSObj) : JSObj :=
  fun k => match extra k with
    | some v => some v
    | none => base k

/-! ## `Number(string)` -/

/-- White space and line terminators stripped by StringToNumber. -/
def isJSWhiteSpace (c : Char) : Bool :=
  let n := c.toNat
  n == 9 || n == 10 || n == 11 || n == 12 || n == 13 || n == 32 || n == 160 ||
  n == 5760 || (8192 ≤ n && n ≤ 8202) || n == 8232 || n == 8233 || n == 8239 ||
  n == 8287 || n == 12288 || n == 65279

/-- Value of a digit character in the given radix. -/
def digitValue (radix : Nat) (c : Char) : Option Nat :=
  let n := c.toNat
  let d : Option Nat :=
    if 48 ≤ n && n ≤ 57 then some (n - 48)
    else if 97 ≤ n && n ≤ 102 then some (n - 87)
    else if 65 ≤ n && n ≤ 70 then some (n - 55)
    else none
  match d with
  | some v => if v < radix then some v else none
  | none => none

/-- Reads a run of digits of the given radix as a natural number, continuing
from `acc`; fails on any other character. -/
def digitsValue (radix : Nat) : List Char → Nat → Option Nat
  | [], acc => some acc
  | c :: cs, acc =>
    match digitValue radix c with
    | some d => digitsValue radix cs (acc * radix + d)
    | none => none

/-- A whole string of digits (at least one) in the given radix. -/
def wholeDigits (radix : Nat) (cs : List Char) : Option Nat :=
  if cs.isEmpty then none else digitsValue radix cs 0

/-- Splits off the longest leading run of decimal digits. -/
def spanDigits : List Char → List Char × List Char
  | [] => ([], [])
  | c :: cs =>
    if (digitValue 10 c).isSome then
      let r := spanDigits cs
      (c :: r.1, r.2)
    else ([], c :: cs)

/-- The exponent part: nothing, or `e`/`E`, an optional sign and digits. -/
def exponentPart : List Char → Option Int
  | [] => some 0
  | c :: cs =>
    if c.toNat == 101 || c.toNat == 69 then
      match cs with
      | [] => none
      | s :: ds =>
        if s.toNat == 43 then (wholeDigits 10 ds).map (fun n => (n : Int))
        else if s.toNat == 45 then (wholeDigits 10 ds).map (fun n => - (n : Int))
        else (wholeDigits 10 (s :: ds)).map (fun n => (n : Int))
    else none

/-- The rational `m * 10 ^ e`. -/
def scale10 (m : Nat) (e : Int) : ℚ :=
  if 0 ≤ e then ((m * 10 ^ e.toNat : Nat) : ℚ) else mkRat (m : Int) (10 ^ (-e).toNat)

/-- An unsigned decimal literal: `Infinity`, `d+`, `d+.d*`, `.d+`, each of the
digit forms with an optional exponent. -/
def unsignedDecimal (cs : List Char) : Option JSNum :=
  if cs == "Infinity".data then some .posInf
  else
    let ip := spanDigits cs
    let fp : List Char × List Char :=
      match ip.2 with
      | [] => ([], [])
      | c :: rest => if c.toNat == 46 then spanDigits rest else ([], c :: rest)
    let hasDot : Bool :=
      match ip.2 with
      | [] => false
      | c :: _ => c.toNat == 46
    if ip.1.isEmpty && fp.1.isEmpty then none
    else if ip.1.isEmpty && !hasDot then none
    else
      match digitsValue 10 (ip.1 ++ fp.1) 0, exponentPart fp.2 with
      | some m, some e => some (.fin (scale10 m (e - (fp.1.length : Int))))
      | _, _ => none

/-- Negation of a number. -/
def JSNum.neg : JSNum → JSNum
  | .nan => .nan
  | .posInf => .negInf
  | .negInf => .posInf
  | .fin q => .fin (-q)

/-- StringToNumber on the trimmed text. -/
def trimmedToNumber (cs : List Char) : JSNum :=
  match cs with
  | [] => .fin 0
  | c :: rest =>
    if c.toNat == 43 then (unsignedDecimal rest).getD .nan
    else if c.toNat == 45 then ((unsignedDecimal rest).map JSNum.neg).getD .nan
    else
      match rest with
      | p :: ds =>
        if c.toNat == 48 && (p.toNat == 120 || p.toNat == 88) then
          ((wholeDigits 16 ds).map (fun n => JSNum.fin (n : ℚ))).getD .nan
        else if c.toNat == 48 && (p.toNat == 111 || p.toNat == 79) then
          ((wholeDigits 8 ds).map (fun n => JSNum.fin (n : ℚ))).getD .nan
        else if c.toNat == 48 && (p.toNat == 98 || p.toNat == 66) then
          ((wholeDigits 2 ds).map (fun n => JSNum.fin (n : ℚ))).getD .nan
        else (unsignedDecimal (c :: rest)).getD .nan
      | [] => (unsignedDecimal (c :: rest)).getD .nan

/-- The conversion `Number(s)` for a string `s`. -/
def stringToNumber (s : String) : JSNum :=
  trimmedToNumber
    (((s.data.dropWhile isJSWhiteSpace).reverse.dropWhile isJSWhiteSpace).reverse)

/-- The conversion `Number(v)`. -/
def toNumber : JSVal → JSNum
  | .undefined => .nan
  | .null => .fin 0
  | .bool true => .fin 1
  | .bool false => .fin 0
  | .num n => n
  | .str s => stringToNumber s
  | .list items => stringToNumber (",".intercalate items)

/-- ToPrimitive: an array becomes its elements joined by commas. -/
def toPrimitive : JSVal → JSVal
  | .list items => .str (",".intercalate items)
  | v => v

/-- The relational `a < b`: after ToPrimitive, two strings compare as text
(by code point), anything else as numbers. -/
def jsLt (a b : JSVal) : Bool :=
  match toPrimitive a, toPrimitive b with
  | .str x, .str y => decide (x < y)
  | pa, pb => JSNum.lt (toNumber pa) (toNumber pb)

/-- The relational `a > b`. -/
def jsGt (a b : JSVal) : Bool := jsLt b a

/-- The function `Math.min(a, b)`. -/
def JSNum.min (a b : JSNum) : JSNum :=
  if a.isNaN || b.isNaN then .nan else if JSNum.lt b a then b else a

/-- The function `Math.max(a, b)`. -/
def JSNum.max (a b : JSNum) : JSNum :=
  if a.isNaN || b.isNaN then .nan else if JSNum.lt a b then b else a

/-! ## Host data and widget state -/

/-- One entry of `hass.states`. -/
structure EntityState where
  state : JSVal
  attributes : Option JSObj

/-- A call `hass.callService(domain, service, data)`; `data` is the object
literal passed, in the order written. -/
structure ServiceCall where
  domain : String
  service : String
  data : List (String × JSVal)
  deriving DecidableEq

/-- The host object `hass`.  `states` is read as the map from the value used as
key in `states[entityId]` to the entry found there; `callService` gives the
completion of the returned promise (`none`: fulfilled, `some e`: rejected). -/
structure Hass where
  states : Option (JSVal → Option EntityState)
  callService : ServiceCall → Option String

/-- The fields of a `HaAtreaRecuperationCard` instance. -/
structure Card where
  hass : Option Hass
  config : JSObj
  _targetValue : JSVal
  _tempUnit : JSVal
  _fanValue : JSVal

/-- The state set up by `constructor()`. -/
def Card.new : Card where
  hass := none
  config := JSObj.ofList []
  _targetValue := .null
  _tempUnit := .str "°C"
  _fanValue := .null

/-- What running a method leaves behind: the instance, the remote calls issued
in order, and the exception thrown (or rejection), if any. -/
structure Outcome where
  card : Card
  calls : List ServiceCall
  thrown : Option String

/-! ## `setConfig` -/

/-- The explicit properties of the object literal in `setConfig`, before
`...config` is applied. -/
def configLiteral (config : JSObj) : JSObj :=
  JSObj.ofList [
    ("title", jsOr (getProp config "title") (.str "Atrea Recuperation")),
    ("entity_climate", getProp config "entity_climate"),
    ("entity_number", jsOr (getProp config "entity_number") .null),
    ("entity_fan", jsOr (getProp config "entity_fan") .null),
    ("entity_select", jsOr (getProp config "entity_select") .null),
    ("sensors", jsOr (getProp config "sensors") (.list [])),
    ("buttons", jsOr (getProp config "buttons") (.list [])),
    ("temp_step", jsOr (getProp config "temp_step") (.num (.fin (1 / 2)))),
    ("min_temp", jsOr (getProp config "min_temp") (.num (.fin 5))),
    ("max_temp", jsOr (getProp config "max_temp") (.num (.fin 30)))]

/-- The method `setConfig(config)`; `none` is a missing (`undefined`/`null`)
argument. -/
def setConfig (self : Card) (config : Option JSObj) : Outcome :=
  match config with
  | none =>
    { card := self, calls := [], thrown := some "Configuration must include an entity_climate" }
  | some o =>
    if !truthy (getProp o "entity_climate") then
      { card := self, calls := [], thrown := some "Configuration must include an entity_climate" }
    else
      { card := { self with config := spread (configLiteral o) o }, calls := [], thrown := none }

/-! ## `updated`: the reconciler -/

/-- The method `_st(entityId)`. -/
def _st (self : Card) (entityId : JSVal) : Option EntityState :=
  match self.hass with
  | some h =>
    match h.states with
    | some states => states entityId
    | none => none
  | none => none

/-- Lines 216-223 of `updated`: the display unit. -/
def updateTempUnit (self : Card) (climateState : Option EntityState) : Card :=
  match climateState with
  | some cs =>
    match cs.attributes with
    | some attrs =>
      if truthy (getProp attrs "unit_of_measurement") then
        { self with _tempUnit := getProp attrs "unit_of_measurement" }
      else
        { self with _tempUnit := .str "°C" }
    | none => self
  | none => self

/-- Lines 225-244 of `updated`: the target value and `targetValueChanged`. -/
def updateTarget (self : Card) (climateState : Option EntityState) : Card × Bool :=
  if truthy (getProp self.config "entity_number") then
    match _st self (getProp self.config "entity_number") with
    | some nst =>
      if strictNe nst.state (.str "unknown") then
        let nval := toNumber nst.state
        if !nval.isNaN && strictNe self._targetValue (.num nval) then
          ({ self with _targetValue := .num nval }, true)
        else (self, false)
      else (self, false)
    | none => (self, false)
  else
    match climateState with
    | some cs =>
      match cs.attributes with
      | some attrs =>
        let cand := nullish (nullish (getProp attrs "temperature")
          (getProp attrs "target_temperature")) (getProp attrs "current_temperature")
        if strictNe cand .undefined && strictNe cand .null then
          let cval := toNumber cand
          if !cval.isNaN && strictNe self._targetValue (.num cval) then
            ({ self with _targetValue := .num cval }, true)
          else (self, false)
        else (self, false)
      | none => (self, false)
    | none => (self, false)

/-- The expression assigned to `fanVal` (lines 250-252). -/
def fanVal (fanState : Option EntityState) : JSNum :=
  let fromState : JSNum :=
    match fanState with
    | some fs =>
      if strictNe fs.state (.str "unknown") && strictNe fs.state (.str "off")
          && strictNe fs.state (.str "on") then toNumber fs.state
      else .fin 0
    | none => .fin 0
  match fanState with
  | some fs =>
    match fs.attributes with
    | some attrs =>
      if strictNe (getProp attrs "percentage") .undefined then
        toNumber (getProp attrs "percentage")
      else fromState
    | none => fromState
  | none => fromState

/-- Lines 246-257 of `updated`: the fan value and `fanValueChanged`. -/
def updateFan (self : Card) : Card × Bool :=
  if truthy (getProp self.config "entity_fan") then
    let v := fanVal (_st self (getProp self.config "entity_fan"))
    if strictNe self._fanValue (.num v) then
      ({ self with _fanValue := .num v }, true)
    else (self, false)
  else (self, false)

/-- Result of one run of `updated`: the instance afterwards and the two local
flags; `repaint` records the call of `_initializeSliderBackgrounds()`. -/
structure Reconciled where
  card : Card
  targetValueChanged : Bool
  fanValueChanged : Bool
  repaint : Bool

/-- The method `updated(changedProps)`; `hassChanged` is
`changedProps.has("hass")`. -/
def updated (self : Card) (hassChanged : Bool) : Reconciled :=
  if hassChanged then
    let climateState := _st self (getProp self.config "entity_climate")
    let s1 := updateTempUnit self climateState
    let t := updateTarget s1 climateState
    let f := updateFan t.1
    { card := f.1, targetValueChanged := t.2, fanValueChanged := f.2,
      repaint := t.2 || f.2 }
  else
    { card := self, targetValueChanged := false, fanValueChanged := false,
      repaint := false }

/-! ## The command dispatcher -/

/-- Issues `await this.hass.callService(...)`: a `TypeError` when `hass` is
missing, else the call is recorded with the completion the host gives it. -/
def callService (self : Card) (c : ServiceCall) : Outcome :=
  match self.hass with
  | some h => { card := self, calls := [c], thrown := h.callService c }
  | none => { card := self, calls := [], thrown := some "TypeError" }

/-- The first two statements of `_setTarget`: the value after both bound
checks. -/
def clampTarget (self : Card) (value : JSVal) : JSVal :=
  let value1 := if jsLt value (getProp self.config "min_temp") then
    getProp self.config "min_temp" else value
  if jsGt value1 (getProp self.config "max_temp") then
    getProp self.config "max_temp" else value1

/-- The method `_setTarget(value)`. -/
def _setTarget (self : Card) (value : JSVal) : Outcome :=
  let value2 := clampTarget self value
  let s := { self with _targetValue := value2 }
  if truthy (getProp s.config "entity_number") then
    callService s
      { domain := "number", service := "set_value",
        data := [("entity_id", getProp s.config "entity_number"),
                 ("value", .num (toNumber value2))] }
  else
    callService s
      { domain := "climate", service := "set_temperature",
        data := [("entity_id", getProp s.config "entity_climate"),
                 ("temperature", .num (toNumber value2))] }

/-- The method `_onSliderChange(e)`; `value` is `e.target.value`. -/
def _onSliderChange (self : Card) (value : JSVal) : Outcome :=
  let v := toNumber value
  if v.isNaN then { card := self, calls := [], thrown := none }
  else _setTarget self (.num v)

/-- The method `_setHvacMode(e)`; `mode` is `e.target.value`. -/
def _setHvacMode (self : Card) (mode : JSVal) : Outcome :=
  if truthy (getProp self.config "entity_select") then
    callService self
      { domain := "select", service := "select_option",
        data := [("entity_id", getProp self.config "entity_select"), ("option", mode)] }
  else
    callService self
      { domain := "climate", service := "set_hvac_mode",
        data := [("entity_id", getProp self.config "entity_climate"), ("hvac_mode", mode)] }

/-- The method `_setFanPercentage(e)`; `value` is `e.target.value`. -/
def _setFanPercentage (self : Card) (value : JSVal) : Outcome :=
  let val := toNumber value
  if !truthy (getProp self.config "entity_fan") then
    { card := self, calls := [], thrown := none }
  else
    callService self
      { domain := "fan", service := "set_percentage",
        data := [("entity_id", getProp self.config "entity_fan"), ("percentage", .num val)] }

/-- The method `_pressButton(entityId)`. -/
def _pressButton (self : Card) (entityId : JSVal) : Outcome :=
  callService self
    { domain := "button", service := "press", data := [("entity_id", entityId)] }

/-! ## Binary64 arithmetic

The arithmetic of the visual computations (`_updateSliderBackground`,
`_renderFanControl`) is IEEE 754 binary64: every operation gives the exact
result rounded to nearest, ties to even, with overflow to an infinity, gradual
underflow, signed zeros and NaN. -/

/-- An IEEE 754 binary64 value.  A finite value is given by the rational it
denotes; `fin 0` is the positive zero and `negZero` the negative zero. -/
inductive F64 where
  | nan
  | posInf
  | negInf
  | negZero
  | fin (q : ℚ)
  deriving DecidableEq

/-- The nearest integer, ties to the even one. -/
def roundHalfEven (x : ℚ) : ℤ :=
  if x - ⌊x⌋ < 1 / 2 then ⌊x⌋
  else if 1 / 2 < x - ⌊x⌋ then ⌊x⌋ + 1
  else if ⌊x⌋ % 2 = 0 then ⌊x⌋ else ⌊x⌋ + 1

/-- The exponent of the last mantissa bit of a positive `q`: 52 below the binary
exponent of `q`, and never below that of the subnormal numbers. -/
def ulpExp (q : ℚ) : ℤ := max (Int.log 2 q) (-1022) - 52

/-- The multiple of `2 ^ ulpExp q` nearest to a positive `q` (ties to even). -/
def roundMag (q : ℚ) : ℚ := (roundHalfEven (q / 2 ^ ulpExp q) : ℚ) * 2 ^ ulpExp q

/-- Rounding of an exact result to binary64 (round to nearest, ties to even):
overflow gives an infinity, underflow a zero of the same sign.  An exact zero
gives the positive zero. -/
def F64.round (q : ℚ) : F64 :=
  if q = 0 then .fin 0
  else if 0 < q then
    if 2 ^ (1024 : ℕ) ≤ roundMag q then .posInf else .fin (roundMag q)
  else
    if 2 ^ (1024 : ℕ) ≤ roundMag (-q) then .negInf
    else if roundMag (-q) = 0 then .negZero
    else .fin (-roundMag (-q))

/-- The sign bit. -/
def F64.signBit : F64 → Bool
  | .negInf => true
  | .negZero => true
  | .fin q => decide (q < 0)
  | _ => false

/-- The rational denoted by a finite value (0 for both zeros). -/
def F64.toRat : F64 → ℚ
  | .fin q => q
  | _ => 0

/-- Whether the value is finite. -/
def F64.isFinite : F64 → Bool
  | .fin _ => true
  | .negZero => true
  | _ => false

/-- Whether the value is one of the two zeros. -/
def F64.isZero : F64 → Bool
  | .negZero => true
  | .fin q => decide (q = 0)
  | _ => false

/-- The zero with the given sign bit. -/
def F64.zero (negative : Bool) : F64 := if negative then .negZero else .fin 0

/-- The infinity with the given sign bit. -/
def F64.inf (negative : Bool) : F64 := if negative then .negInf else .posInf

/-- Unary minus. -/
def F64.neg : F64 → F64
  | .nan => .nan
  | .posInf => .negInf
  | .negInf => .posInf
  | .negZero => .fin 0
  | .fin q => if q = 0 then .negZero else .fin (-q)

/-- The operator `a + b`. -/
def F64.add (a b : F64) : F64 :=
  match a, b with
  | .nan, _ => .nan
  | _, .nan => .nan
  | .posInf, .negInf => .nan
  | .negInf, .posInf => .nan
  | .posInf, _ => .posInf
  | _, .posInf => .posInf
  | .negInf, _ => .negInf
  | _, .negInf => .negInf
  | a, b =>
    if a.isZero && b.isZero then F64.zero (a.signBit && b.signBit)
    else F64.round (a.toRat + b.toRat)

/-- The operator `a - b`. -/
def F64.sub (a b : F64) : F64 := F64.add a (F64.neg b)

/-- The operator `a * b`. -/
def F64.mul (a b : F64) : F64 :=
  match a, b with
  | .nan, _ => .nan
  | _, .nan => .nan
  | a, b =>
    if a.isFinite && b.isFinite then
      if a.isZero || b.isZero then F64.zero (xor a.signBit b.signBit)
      else F64.round (a.toRat * b.toRat)
    else if a.isZero || b.isZero then .nan
    else F64.inf (xor a.signBit b.signBit)

/-- The operator `a / b`. -/
def F64.div (a b : F64) : F64 :=
  match a, b with
  | .nan, _ => .nan
  | _, .nan => .nan
  | a, b =>
    if a.isFinite then
      if b.isFinite then
        if b.isZero then (if a.isZero then .nan else F64.inf (xor a.signBit b.signBit))
        else if a.isZero then F64.zero (xor a.signBit b.signBit)
        else F64.round (a.toRat / b.toRat)
      else F64.zero (xor a.signBit b.signBit)
    else if b.isFinite then F64.inf (xor a.signBit b.signBit)
    else .nan

/-- The relational `a < b` (false whenever NaN is involved; the zeros are
equal). -/
def F64.lt : F64 → F64 → Bool
  | .nan, _ => false
  | _, .nan => false
  | .posInf, _ => false
  | _, .negInf => false
  | .negInf, _ => true
  | _, .posInf => true
  | a, b => decide (a.toRat < b.toRat)

/-- The function `Math.max(a, b)`. -/
def F64.max (a b : F64) : F64 :=
  match a, b with
  | .nan, _ => .nan
  | _, .nan => .nan
  | a, b =>
    if F64.lt a b then b
    else if F64.lt b a then a
    else if a.isZero && b.isZero then F64.zero (a.signBit && b.signBit)
    else a

/-- StringToNumber on the trimmed text, as sign and magnitude: the cases of
`trimmedToNumber`, with the sign kept apart so that `-0` is not lost. -/
def trimmedToSigned (cs : List Char) : Bool × JSNum :=
  match cs with
  | [] => (false, .fin 0)
  | c :: rest =>
    if c.toNat == 43 then (false, (unsignedDecimal rest).getD .nan)
    else if c.toNat == 45 then (true, (unsignedDecimal rest).getD .nan)
    else
      match rest with
      | p :: ds =>
        if c.toNat == 48 && (p.toNat == 120 || p.toNat == 88) then
          (false, ((wholeDigits 16 ds).map (fun n => JSNum.fin (n : ℚ))).getD .nan)
        else if c.toNat == 48 && (p.toNat == 111 || p.toNat == 79) then
          (false, ((wholeDigits 8 ds).map (fun n => JSNum.fin (n : ℚ))).getD .nan)
        else if c.toNat == 48 && (p.toNat == 98 || p.toNat == 66) then
          (false, ((wholeDigits 2 ds).map (fun n => JSNum.fin (n : ℚ))).getD .nan)
        else (false, (unsignedDecimal (c :: rest)).getD .nan)
      | [] => (false, (unsignedDecimal (c :: rest)).getD .nan)

/-- The sign and exact magnitude that a string denotes as a number. -/
def parseSigned (s : String) : Bool × JSNum :=
  trimmedToSigned
    (((s.data.dropWhile isJSWhiteSpace).reverse.dropWhile isJSWhiteSpace).reverse)

/-- The binary64 value of a parsed sign and exact magnitude. -/
def F64.ofSigned (negative : Bool) : JSNum → F64
  | .nan => .nan
  | .posInf => F64.inf negative
  | .negInf => F64.inf (!negative)
  | .fin q => if q = 0 then F64.zero negative else F64.round (if negative then -q else q)

/-- The conversion `Number(s)` for a string `s`, as the binary64 value. -/
def stringToF64 (s : String) : F64 := F64.ofSigned (parseSigned s).1 (parseSigned s).2

/-! ## Visual support: slider fill, fan animation, displayed target -/

/-- A range input as `_updateSliderBackground` sees it: the DOM properties
`min`, `max`, `value` (strings), and `background`, the percentage `pct`
interpolated (twice) into the gradient last assigned to `style.background`
(`none`: not assigned). -/
structure Slider where
  min : String
  max : String
  value : String
  background : Option F64

/-- The local `pct` of `_updateSliderBackground`. -/
def sliderPct (slider : Slider) : F64 :=
  let min := stringToF64 slider.min
  let max := stringToF64 slider.max
  let val := stringToF64 slider.value
  F64.mul (F64.div (F64.sub val min) (F64.sub max min)) (.fin 100)

/-- The method `_updateSliderBackground(slider)`.  A missing slider (`none`) makes
the first property read throw inside `try`; the `catch` ignores it. -/
def _updateSliderBackground (slider : Option Slider) : Option Slider :=
  match slider with
  | some s => some { s with background := some (sliderPct s) }
  | none => none

/-- The local `val` of `_renderFanControl` (line 409). -/
def fanControlVal (self : Card) : JSVal :=
  if strictNe self._fanValue .null && strictNe self._fanValue .undefined then self._fanValue
  else .num (.fin 0)

/-- The local `durationSeconds` of `_renderFanControl` (lines 412-419) as a
function of the number `val`. -/
def durationSeconds (val : F64) : F64 :=
  let MIN_ANIMATION_DURATION : F64 := .fin (1 / 2)
  let MAX_ANIMATION_DURATION : F64 := .fin 3
  if F64.lt (.fin 0) val then
    F64.max MIN_ANIMATION_DURATION
      (F64.sub MAX_ANIMATION_DURATION
        (F64.mul (F64.div val (.fin 100))
          (F64.sub MAX_ANIMATION_DURATION MIN_ANIMATION_DURATION)))
  else .fin 0

/-- The duration for a fan value `q` in `(0, 100]`, written with the three
roundings of `q / 100`, `.. * 2.5` and `3 - ..`. -/
def durationMag (q : ℚ) : ℚ :=
  roundMag (3 - (if roundMag (q / 100) = 0 then 0 else roundMag (roundMag (q / 100) * (5 / 2))))

/-- A value that is `-∞`, or finite and at most `c`. -/
def F64.atMost (x : F64) (c : ℚ) : Prop :=
  x = .negInf ∨ (x.isFinite = true ∧ x.toRat ≤ c)

/-- A value whose finite case is a multiple of `2^-1074`, the spacing of the
smallest binary64 numbers. -/
def F64.onGrid (x : F64) : Prop := ∃ n : ℤ, x.toRat = (n : ℚ) * 2 ^ (-1074 : ℤ)

/-- A finite value between 0 and `c`. -/
def F64.within (x : F64) (c : ℚ) : Prop :=
  x.isFinite = true ∧ 0 ≤ x.toRat ∧ x.toRat ≤ c

/-- The local `target` of `render` (lines 447-454). -/
def renderTarget (self : Card) : JSVal :=
  let climateState := _st self (getProp self.config "entity_climate")
  let target0 := self._targetValue
  let target1 :=
    if (strictEq target0 .null || strictEq target0 .undefined)
        && truthy (getProp self.config "entity_number") then
      match _st self (getProp self.config "entity_number") with
      | some nst => .num (toNumber nst.state)
      | none => target0
    else target0
  if strictEq target1 .null || strictEq target1 .undefined then
    match climateState with
    | some cs =>
      match cs.attributes with
      | some attrs =>
        nullish (nullish (getProp attrs "temperature") (getProp attrs "target_temperature"))
          (getProp attrs "current_temperature")
      | none => target1
    | none => target1
  else target1

/-! ## Sample data -/

/-- A snapshot with a climate entity (target 21), a numeric target entity
(state `22`) and a fan entity that is `unavailable`. -/
def sampleStates : JSVal → Option EntityState := fun k =>
  if k = .str "climate.atrea" then
    some { state := .str "heat",
           attributes := some (JSObj.ofList [("temperature", .num (.fin 21))]) }
  else if k = .str "number.atrea_target" then
    some { state := .str "22", attributes := some (JSObj.ofList []) }
  else if k = .str "fan.atrea" then
    some { state := .str "unavailable", attributes := some (JSObj.ofList []) }
  else none

/-- A host that accepts every call. -/
def sampleHass : Hass where
  states := some sampleStates
  callService := fun _ => none

/-- A card configured with climate, numeric target and fan entities. -/
def sampleCard : Card :=
  { Card.new with
    hass := some sampleHass
    config := JSObj.ofList [("entity_climate", .str "climate.atrea"),
      ("entity_number", .str "number.atrea_target"), ("entity_fan", .str "fan.atrea"),
      ("min_temp", .num (.fin 5)), ("max_temp", .num (.fin 30))] }

/-- The entry of the numeric target entity in `sampleStates`. -/
def sampleNumberState : EntityState :=
  { state := .str "22", attributes := some (JSObj.ofList []) }

/-- The entry of the climate entity in `sampleStates`. -/
def sampleClimateState : EntityState :=
  { state := .str "heat",
    attributes := some (JSObj.ofList [("temperature", .num (.fin 21))]) }

/-- An entry whose state is the sentinel `unknown`. -/
def unknownNumberState : EntityState :=
  { state := .str "unknown", attributes := some (JSObj.ofList []) }

/-- The sample card on a snapshot where the numeric target entity reports
`unknown` while the climate entity still reports target 21. -/
def unknownTargetCard : Card :=
  { sampleCard with
    hass := some
      { states := some (fun k =>
          if k = .str "number.atrea_target" then some unknownNumberState
          else sampleStates k)
        callService := fun _ => none } }

/-- The sample card without a numeric target entity. -/
def climateOnlyCard : Card :=
  { sampleCard with
    config := JSObj.ofList [("entity_climate", .str "climate.atrea")] }

/-- The sample card with a numeric target entity that the snapshot lacks. -/
def missingTargetCard : Card :=
  { sampleCard with
    config := JSObj.ofList [("entity_climate", .str "climate.atrea"),
      ("entity_number", .str "number.missing")] }

/-- The sample card with a mode-select entity and a previous target of 18. -/
def selectCard : Card :=
  { sampleCard with
    _targetValue := .num (.fin 18)
    config := JSObj.ofList [("entity_climate", .str "climate.atrea"),
      ("entity_select", .str "select.atrea_mode"),
      ("min_temp", .num (.fin 5)), ("max_temp", .num (.fin 30))] }

/-- The sample card on a host that rejects every call. -/
def rejectingCard : Card :=
  { sampleCard with
    hass := some { states := some sampleStates
                   callService := fun _ => some "service unavailable" } }

/-- A card with climate and fan entities on a snapshot whose only entry is
the given fan entity state (if any). -/
def fanCard (fanState : Option EntityState) : Card :=
  { Card.new with
    hass := some { states := some (fun k => if k = .str "fan.atrea" then fanState else none)
                   callService := fun _ => none }
    config := JSObj.ofList [("entity_climate", .str "climate.atrea"),
      ("entity_fan", .str "fan.atrea")] }

/-- A fan entity that is `on` and exposes `percentage: 42`. -/
def fanOn42 : EntityState :=
  { state := .str "on", attributes := some (JSObj.ofList [("percentage", .num (.fin 42))]) }

/-- A fan entity with state `75` and no `percentage`. -/
def fanState75 : EntityState :=
  { state := .str "75", attributes := some (JSObj.ofList []) }

/-- A fan entity that is `off` and exposes no `percentage`. -/
def fanOff : EntityState :=
  { state := .str "off", attributes := some (JSObj.ofList []) }

/-- The defaults documented for the optional configuration keys. -/
def documentedDefaults : JSObj :=
  JSObj.ofList [
    ("title", .str "Atrea Recuperation"),
    ("entity_number", .null),
    ("entity_fan", .null),
    ("entity_select", .null),
    ("sensors", .list []),
    ("buttons", .list []),
    ("temp_step", .num (.fin (1 / 2))),
    ("min_temp", .num (.fin 5)),
    ("max_temp", .num (.fin 30))]

/-- A user configuration that names the climate entity and sets `min_temp: 0`. -/
def zeroMinConfig : JSObj :=
  JSObj.ofList [("entity_climate", .str "climate.atrea"), ("min_temp", .num (.fin 0))]

/-- The first value of a list that is neither `undefined` nor `null`. -/
def firstDefined : List JSVal → Option JSVal
  | [] => none
  | v :: rest => if v = .undefined ∨ v = .null then firstDefined rest else some v

/-- The relation `a <= b` on numbers. -/
def JSNum.le (a b : JSNum) : Bool := JSNum.lt a b || JSNum.eq a b

/-- The WidgetConfig invariant of the data model, on a stored configuration:
`min_temp`, `max_temp` and `temp_step` are numbers with `min_temp <= max_temp`
and `temp_step > 0`. -/
def widgetConfigInvariant (c : JSObj) : Bool :=
  match getProp c "min_temp", getProp c "max_temp", getProp c "temp_step" with
  | .num lo, .num hi, .num step => JSNum.le lo hi && JSNum.lt (.fin 0) step
  | _, _, _ => false

/-- A user configuration with `min_temp: 40` above `max_temp: 10`. -/
def invertedBoundsConfig : JSObj :=
  JSObj.ofList [("entity_climate", .str "climate.atrea"),
    ("min_temp", .num (.fin 40)), ("max_temp", .num (.fin 10))]

/-- The sample card with a climate entity id that the snapshot does not know. -/
def noClimateCard : Card :=
  { sampleCard with
    config := JSObj.ofList [("entity_climate", .str "climate.missing"),
      ("entity_number", .str "number.atrea_target")] }

/-- A card whose only configured entity, the climate entity, is not in the
snapshot; it already holds a unit, a target and a fan value. -/
def bareMissingCard : Card :=
  { sampleCard with
    config := JSObj.ofList [("entity_climate", .str "climate.missing")]
    _targetValue := .num (.fin 19)
    _tempUnit := .str "°F"
    _fanValue := .num (.fin 40) }

/-- A fan entity that is `unavailable` and exposes no `percentage`. -/
def fanUnavailable : EntityState :=
  { state := .str "unavailable", attributes := some (JSObj.ofList []) }

/-- A card that holds fan value 40 when the fan entity turns `unavailable`. -/
def staleFanCard : Card :=
  { fanCard (some fanUnavailable) with _fanValue := .num (.fin 40) }

/-- A slider whose bounds coincide, at that bound: `min = max = value = 5`. -/
def equalBoundsSlider : Slider :=
  { min := "5", max := "5", value := "5", background := none }

/-- The fan slider (bounds 0 and 100) at value 7. -/
def sevenSlider : Slider :=
  { min := "0", max := "100", value := "7", background := none }

/-- A slider whose upper bound is the negative zero: `min = 0`, `max = -0`,
`value = 1`. -/
def negZeroSlider : Slider :=
  { min := "0", max := "-0", value := "1", background := none }

/-- A card without numeric target entity whose bounds are inverted:
`min_temp: 40`, `max_temp: 10`. -/
def invertedBoundsCard : Card :=
  { sampleCard with
    config := JSObj.ofList [("entity_climate", .str "climate.atrea"),
      ("min_temp", .num (.fin 40)), ("max_temp", .num (.fin 10))] }

/-- A fan entity with the numeric state `75` that exposes `percentage: null`. -/
def fanNullPercentage75 : EntityState :=
  { state := .str "75", attributes := some (JSObj.ofList [("percentage", .null)]) }

/-! ## Basic facts about the value operations -/

theorem toNumber_unknown : toNumber (.str "unknown") = .nan := by decide

theorem strictNe_num_false (v : JSVal) (n : JSNum) :
    strictNe v (.num n) = false ↔ (v = .num n ∧ n.isNaN = false) := by
  cases v with
  | num a => cases a <;> cases n <;> simp [strictNe, strictEq, JSNum.eq, JSNum.isNaN]
  | _ => simp [strictNe, strictEq]

theorem strictNe_str_false (v : JSVal) (s : String) :
    strictNe v (.str s) = false ↔ v = .str s := by
  cases v <;> simp [strictNe, strictEq]

theorem updateTempUnit_config (self : Card) (cs : Option EntityState) :
    (updateTempUnit self cs).config = self.config := by
  unfold updateTempUnit
  split
  · split
    · split <;> rfl
    · rfl
  · rfl

theorem updateTempUnit_hass (self : Card) (cs : Option EntityState) :
    (updateTempUnit self cs).hass = self.hass := by
  unfold updateTempUnit
  split
  · split
    · split <;> rfl
    · rfl
  · rfl

theorem updateTempUnit_target (self : Card) (cs : Option EntityState) :
    (updateTempUnit self cs)._targetValue = self._targetValue := by
  unfold updateTempUnit
  split
  · split
    · split <;> rfl
    · rfl
  · rfl

theorem updateTempUnit_fan (self : Card) (cs : Option EntityState) :
    (updateTempUnit self cs)._fanValue = self._fanValue := by
  unfold updateTempUnit
  split
  · split
    · split <;> rfl
    · rfl
  · rfl

theorem st_congr (a b : Card) (h : a.hass = b.hass) (k : JSVal) : _st a k = _st b k := by
  unfold _st
  rw [h]

theorem updateFan_target (self : Card) : (updateFan self).1._targetValue = self._targetValue := by
  unfold updateFan
  split
  · simp only []
    split <;> rfl
  · rfl

/-- After `updated` on a hass change the target is the one `updateTarget`
computes from the incoming instance. -/
theorem updated_target_eq (self : Card) :
    (updated self true).card._targetValue =
      (updateTarget (updateTempUnit self (_st self (getProp self.config "entity_climate")))
        (_st self (getProp self.config "entity_climate"))).1._targetValue := by
  simp [updated, updateFan_target]

/-- The local flag `targetValueChanged` is the one `updateTarget` computes. -/
theorem updated_targetChanged_eq (self : Card) :
    (updated self true).targetValueChanged =
      (updateTarget (updateTempUnit self (_st self (getProp self.config "entity_climate")))
        (_st self (getProp self.config "entity_climate"))).2 := by
  simp [updated]

/-- With a numeric target entity configured and present, whose state is not
`"unknown"` and converts to a number, the target becomes that number. -/
theorem updateTarget_number (s : Card) (cs : Option EntityState) (nst : EntityState)
    (hcfg : truthy (getProp s.config "entity_number") = true)
    (hst : _st s (getProp s.config "entity_number") = some nst)
    (hnan : (toNumber nst.state).isNaN = false) :
    (updateTarget s cs).1._targetValue = .num (toNumber nst.state) := by
  have hunk : strictNe nst.state (.str "unknown") = true := by
    cases h : strictNe nst.state (.str "unknown") with
    | true => rfl
    | false =>
      rw [strictNe_str_false] at h
      rw [h, toNumber_unknown] at hnan
      simp [JSNum.isNaN] at hnan
  unfold updateTarget
  simp only [hcfg, hst, hunk, hnan, if_true]
  cases h : strictNe s._targetValue (.num (toNumber nst.state)) with
  | true => simp
  | false =>
    simp
    exact ((strictNe_num_false _ _).1 h).1

/-- With a numeric target entity configured, a state that is `"unknown"`,
does not convert to a number, or is missing leaves the instance untouched. -/
theorem updateTarget_number_invalid (s : Card) (cs : Option EntityState)
    (hcfg : truthy (getProp s.config "entity_number") = true)
    (hbad : ∀ nst, _st s (getProp s.config "entity_number") = some nst →
      nst.state = .str "unknown" ∨ (toNumber nst.state).isNaN = true) :
    updateTarget s cs = (s, false) := by
  unfold updateTarget
  simp only [hcfg, if_true]
  cases hst : _st s (getProp s.config "entity_number") with
  | none => rfl
  | some nst =>
    simp only []
    rcases hbad nst hst with h | h
    · simp [h, strictNe, strictEq]
    · simp [h]

/-- The chain `a ?? b ?? c` is the first defined of the three values, and is
`undefined` or `null` when there is none. -/
theorem nullish_chain (a b c : JSVal) :
    (∀ v, firstDefined [a, b, c] = some v → nullish (nullish a b) c = v) ∧
    (firstDefined [a, b, c] = none →
      nullish (nullish a b) c = .undefined ∨ nullish (nullish a b) c = .null) := by
  cases a <;> cases b <;> cases c <;> simp [firstDefined, nullish]

/-- What `firstDefined` returns is neither `undefined` nor `null`. -/
theorem firstDefined_defined (l : List JSVal) (v : JSVal) (h : firstDefined l = some v) :
    v ≠ .undefined ∧ v ≠ .null := by
  induction l with
  | nil => simp [firstDefined] at h
  | cons a rest ih =>
    unfold firstDefined at h
    split at h
    · exact ih h
    · injection h with h
      subst h
      constructor <;> intro hc <;> simp_all

/-- Without a numeric target entity, `updateTarget` on a climate entity with
attributes is decided by the candidate `temperature ?? target_temperature ??
current_temperature`. -/
theorem updateTarget_climate (s : Card) (cst : EntityState) (attrs : JSObj)
    (hcfg : truthy (getProp s.config "entity_number") = false)
    (hattrs : cst.attributes = some attrs) :
    (∀ v, firstDefined [getProp attrs "temperature", getProp attrs "target_temperature",
        getProp attrs "current_temperature"] = some v → (toNumber v).isNaN = false →
      (updateTarget s (some cst)).1._targetValue = .num (toNumber v)) ∧
    (∀ v, firstDefined [getProp attrs "temperature", getProp attrs "target_temperature",
        getProp attrs "current_temperature"] = some v → (toNumber v).isNaN = true →
      updateTarget s (some cst) = (s, false)) ∧
    (firstDefined [getProp attrs "temperature", getProp attrs "target_temperature",
        getProp attrs "current_temperature"] = none →
      updateTarget s (some cst) = (s, false)) := by
  have hch := nullish_chain (getProp attrs "temperature") (getProp attrs "target_temperature")
    (getProp attrs "current_temperature")
  refine ⟨?_, ?_, ?_⟩
  · intro v hv hnan
    have hc := hch.1 v hv
    have hd := firstDefined_defined _ v hv
    have hdef : strictNe v .undefined = true ∧ strictNe v .null = true := by
      cases v <;> simp_all [strictNe, strictEq]
    unfold updateTarget
    simp only [hcfg, hattrs, hc, hdef.1, hdef.2, hnan]
    cases h : strictNe s._targetValue (.num (toNumber v)) with
    | true => simp
    | false =>
      simp
      exact ((strictNe_num_false _ _).1 h).1
  · intro v hv hnan
    have hc := hch.1 v hv
    unfold updateTarget
    simp [hcfg, hattrs, hc, hnan]
  · intro hnone
    unfold updateTarget
    rcases hch.2 hnone with h | h <;> simp [hcfg, hattrs, h, strictNe, strictEq]

/-- C1 (priority law).  On a hass change, when a numeric target entity is
configured, present in the snapshot, and its state converts to a number `n`,
the target value after `updated` is `n`; and it is not the number carried by
any of the climate attributes `temperature`, `target_temperature`,
`current_temperature` whose numeric value differs from `n`. -/
theorem updated_priority_law (self : Card) (nst : EntityState)
    (hcfg : truthy (getProp self.config "entity_number") = true)
    (hst : _st self (getProp self.config "entity_number") = some nst)
    (hnan : (toNumber nst.state).isNaN = false) :
    (updated self true).card._targetValue = .num (toNumber nst.state) ∧
    ∀ (cst : EntityState) (attrs : JSObj) (k : String),
      _st self (getProp self.config "entity_climate") = some cst →
      cst.attributes = some attrs →
      k ∈ ["temperature", "target_temperature", "current_temperature"] →
      toNumber (getProp attrs k) ≠ toNumber nst.state →
      (updated self true).card._targetValue ≠ .num (toNumber (getProp attrs k)) := by
  have key : (updated self true).card._targetValue = .num (toNumber nst.state) := by
    rw [updated_target_eq]
    apply updateTarget_number
    · rw [updateTempUnit_config]; exact hcfg
    · rw [updateTempUnit_config, st_congr _ self (updateTempUnit_hass _ _)]; exact hst
    · exact hnan
  refine ⟨key, ?_⟩
  intro cst attrs k _ _ _ hne heq
  rw [key] at heq
  injection heq with h
  exact hne h.symm

/-- Instance of the priority law: number entity `22` against climate target 21. -/
theorem updated_priority_law_witness :
    truthy (getProp sampleCard.config "entity_number") = true ∧
    _st sampleCard (getProp sampleCard.config "entity_number") = some sampleNumberState ∧
    (toNumber sampleNumberState.state).isNaN = false ∧
    (updated sampleCard true).card._targetValue = .num (.fin 22) ∧
    (updated sampleCard true).card._targetValue ≠ .num (.fin 21) :=
  ⟨by decide, rfl, by decide,
    (updated_priority_law sampleCard sampleNumberState (by decide) rfl (by decide)).1,
    by decide⟩

/-- C6 (parse resilience).  On a hass change, when the configured numeric target
entity is present with state `"unknown"` or a state that does not convert to a
number, `updated` returns normally, the target value is the prior one and
`targetValueChanged` is false. -/
theorem updated_parse_resilience (self : Card) (nst : EntityState)
    (hcfg : truthy (getProp self.config "entity_number") = true)
    (hst : _st self (getProp self.config "entity_number") = some nst)
    (hbad : nst.state = .str "unknown" ∨ (toNumber nst.state).isNaN = true) :
    (updated self true).card._targetValue = self._targetValue ∧
    (updated self true).targetValueChanged = false := by
  have key : updateTarget (updateTempUnit self (_st self (getProp self.config "entity_climate")))
      (_st self (getProp self.config "entity_climate")) =
      (updateTempUnit self (_st self (getProp self.config "entity_climate")), false) := by
    apply updateTarget_number_invalid
    · rw [updateTempUnit_config]; exact hcfg
    · intro nst2 h2
      rw [updateTempUnit_config, st_congr _ self (updateTempUnit_hass _ _), hst] at h2
      injection h2 with h2
      rw [← h2]; exact hbad
  constructor
  · rw [updated_target_eq, key]; exact updateTempUnit_target _ _
  · rw [updated_targetChanged_eq, key]

/-- Instance of parse resilience: the numeric target entity reports `unknown`. -/
theorem updated_parse_resilience_witness :
    truthy (getProp unknownTargetCard.config "entity_number") = true ∧
    _st unknownTargetCard (getProp unknownTargetCard.config "entity_number")
      = some unknownNumberState ∧
    unknownNumberState.state = .str "unknown" ∧
    (updated unknownTargetCard true).card._targetValue = unknownTargetCard._targetValue ∧
    (updated unknownTargetCard true).targetValueChanged = false :=
  ⟨by decide, rfl, rfl,
    updated_parse_resilience unknownTargetCard unknownNumberState (by decide) rfl (Or.inl rfl)⟩

/-- Counterexample to C7 as stated.  The numeric target entity is configured
and reports `unknown`, the climate entity carries `temperature` 21, the prior
target is unset: `updated` leaves the target unset instead of taking 21. -/
theorem updated_fall_through_counterexample :
    truthy (getProp unknownTargetCard.config "entity_number") = true ∧
    _st unknownTargetCard (getProp unknownTargetCard.config "entity_number")
      = some unknownNumberState ∧
    unknownNumberState.state = .str "unknown" ∧
    _st unknownTargetCard (getProp unknownTargetCard.config "entity_climate")
      = some sampleClimateState ∧
    (sampleClimateState.attributes.map (fun attrs =>
      firstDefined [getProp attrs "temperature", getProp attrs "target_temperature",
        getProp attrs "current_temperature"])) = some (some (.num (.fin 21))) ∧
    unknownTargetCard._targetValue = .null ∧
    (updated unknownTargetCard true).card._targetValue = .null ∧
    (updated unknownTargetCard true).card._targetValue ≠ .num (.fin 21) :=
  ⟨by decide, rfl, rfl, rfl, by decide, rfl, by decide, by decide⟩

/-- C7 (amended).  On a hass change, when a numeric target entity is configured
and yields no valid number (its state is `"unknown"`, does not convert to a
number, or the entity is missing from the snapshot), `updated` keeps the prior
target value and reports `targetValueChanged = false`, whatever the climate
entity and its attributes are. -/
theorem updated_number_configured_keeps_target (self : Card)
    (hcfg : truthy (getProp self.config "entity_number") = true)
    (hbad : ∀ nst, _st self (getProp self.config "entity_number") = some nst →
      nst.state = .str "unknown" ∨ (toNumber nst.state).isNaN = true) :
    (updated self true).card._targetValue = self._targetValue ∧
    (updated self true).targetValueChanged = false := by
  have key : updateTarget (updateTempUnit self (_st self (getProp self.config "entity_climate")))
      (_st self (getProp self.config "entity_climate")) =
      (updateTempUnit self (_st self (getProp self.config "entity_climate")), false) := by
    apply updateTarget_number_invalid
    · rw [updateTempUnit_config]; exact hcfg
    · intro nst h
      rw [updateTempUnit_config, st_congr _ self (updateTempUnit_hass _ _)] at h
      exact hbad nst h
  constructor
  · rw [updated_target_eq, key]; exact updateTempUnit_target _ _
  · rw [updated_targetChanged_eq, key]

/-- Instance of the amended C7: the configured numeric target entity is missing
from the snapshot while the climate entity reports target 21. -/
theorem updated_number_configured_keeps_target_witness :
    truthy (getProp missingTargetCard.config "entity_number") = true ∧
    _st missingTargetCard (getProp missingTargetCard.config "entity_number") = none ∧
    _st missingTargetCard (getProp missingTargetCard.config "entity_climate")
      = some sampleClimateState ∧
    (updated missingTargetCard true).card._targetValue = missingTargetCard._targetValue ∧
    (updated missingTargetCard true).targetValueChanged = false :=
  ⟨by decide, rfl, rfl,
    updated_number_configured_keeps_target missingTargetCard (by decide)
      (fun nst h => by
        have h2 : (none : Option EntityState) = some nst := h
        injection h2)⟩

/-- C8 (climate attribute order).  On a hass change with no numeric target
entity configured and a climate entity that has attributes: if the first defined
value among `temperature`, `target_temperature`, `current_temperature` converts
to a number, the target value after `updated` is that number; if it does not
convert to a number, or none of the three is defined, the target value is the
prior one. -/
theorem updated_climate_attribute_order (self : Card) (cst : EntityState) (attrs : JSObj)
    (hcfg : truthy (getProp self.config "entity_number") = false)
    (hcl : _st self (getProp self.config "entity_climate") = some cst)
    (hattrs : cst.attributes = some attrs) :
    (∀ v, firstDefined [getProp attrs "temperature", getProp attrs "target_temperature",
        getProp attrs "current_temperature"] = some v → (toNumber v).isNaN = false →
      (updated self true).card._targetValue = .num (toNumber v)) ∧
    (∀ v, firstDefined [getProp attrs "temperature", getProp attrs "target_temperature",
        getProp attrs "current_temperature"] = some v → (toNumber v).isNaN = true →
      (updated self true).card._targetValue = self._targetValue) ∧
    (firstDefined [getProp attrs "temperature", getProp attrs "target_temperature",
        getProp attrs "current_temperature"] = none →
      (updated self true).card._targetValue = self._targetValue) := by
  have hcfg2 : truthy (getProp (updateTempUnit self (some cst)).config "entity_number") = false := by
    rw [updateTempUnit_config]; exact hcfg
  have h := updateTarget_climate (updateTempUnit self (some cst)) cst attrs hcfg2 hattrs
  refine ⟨?_, ?_, ?_⟩
  · intro v hv hnan
    rw [updated_target_eq, hcl]
    exact h.1 v hv hnan
  · intro v hv hnan
    rw [updated_target_eq, hcl, h.2.1 v hv hnan]
    exact updateTempUnit_target _ _
  · intro hnone
    rw [updated_target_eq, hcl, h.2.2 hnone]
    exact updateTempUnit_target _ _

/-- Instance of C8: only `temperature` 21 is defined, the target becomes 21. -/
theorem updated_climate_attribute_order_witness :
    truthy (getProp climateOnlyCard.config "entity_number") = false ∧
    _st climateOnlyCard (getProp climateOnlyCard.config "entity_climate")
      = some sampleClimateState ∧
    sampleClimateState.attributes
      = some (JSObj.ofList [("temperature", .num (.fin 21))]) ∧
    (updated climateOnlyCard true).card._targetValue = .num (.fin 21) :=
  ⟨by decide, rfl, rfl,
    (updated_climate_attribute_order climateOnlyCard sampleClimateState
      (JSObj.ofList [("temperature", .num (.fin 21))]) (by decide) rfl rfl).1
      (.num (.fin 21)) (by decide) (by decide)⟩

/-- On finite numbers `Math.max` is the maximum of the rationals. -/
theorem JSNum.max_fin (a b : ℚ) : JSNum.max (.fin a) (.fin b) = .fin (Max.max a b) := by
  by_cases h : a < b
  · simp [JSNum.max, JSNum.isNaN, JSNum.lt, h, max_eq_right (le_of_lt h)]
  · simp [JSNum.max, JSNum.isNaN, JSNum.lt, h, max_eq_left (not_lt.1 h)]

/-- On finite numbers `Math.min` is the minimum of the rationals. -/
theorem JSNum.min_fin (a b : ℚ) : JSNum.min (.fin a) (.fin b) = .fin (Min.min a b) := by
  by_cases h : b < a
  · simp [JSNum.min, JSNum.isNaN, JSNum.lt, h, min_eq_right (le_of_lt h)]
  · simp [JSNum.min, JSNum.isNaN, JSNum.lt, h, min_eq_left (not_lt.1 h)]

/-- The two bound checks of `_setTarget` on numbers with `min_temp <= max_temp`
compute `max(min_temp, min(max_temp, v))`. -/
theorem jsLt_num (a b : JSNum) : jsLt (.num a) (.num b) = JSNum.lt a b := rfl

theorem clampTarget_num (s : Card) (v lo hi : JSNum)
    (hlo : getProp s.config "min_temp" = .num lo)
    (hhi : getProp s.config "max_temp" = .num hi)
    (hv : v.isNaN = false) (hlo2 : lo.isNaN = false) (hhi2 : hi.isNaN = false)
    (hle : JSNum.lt hi lo = false) :
    clampTarget s (.num v) = .num (JSNum.max lo (JSNum.min hi v)) := by
  unfold clampTarget jsGt
  rw [hlo, hhi]
  cases h1 : JSNum.lt v lo with
  | true =>
    simp only [jsLt_num, h1, if_true, hle, Bool.false_eq_true, if_false]
    cases v <;> cases lo <;> cases hi <;>
      simp_all [JSNum.lt, JSNum.max, JSNum.min, JSNum.isNaN] <;>
      (try split_ifs) <;> (try simp_all) <;> (try linarith)
  | false =>
    simp only [jsLt_num, h1, Bool.false_eq_true, if_false]
    cases h2 : JSNum.lt hi v with
    | true =>
      simp only [if_true]
      cases v <;> cases lo <;> cases hi <;>
        simp_all [JSNum.lt, JSNum.max, JSNum.min, JSNum.isNaN] <;>
        (try split_ifs) <;> (try simp_all) <;> (try linarith)
    | false =>
      simp only [Bool.false_eq_true, if_false]
      cases v <;> cases lo <;> cases hi <;>
        simp_all [JSNum.lt, JSNum.max, JSNum.min, JSNum.isNaN] <;>
        (try split_ifs) <;> (try simp_all) <;> (try linarith)

/-- C2 (clamp law with optimistic update).  For a commit value `v` and bounds
`min_temp = lo`, `max_temp = hi`, all numbers (not NaN) with `lo <= hi`, on any
host: `_setTarget(v)` stores `max(lo, min(hi, v))` in `_targetValue`, issues
exactly one call whose payload carries that same value (as `value` for the
numeric entity, as `temperature` for the climate entity), and this holds whatever
completion the host gives the call: the stored value is the clamped one also
when the call is rejected. -/
theorem setTarget_clamp_law (self : Card) (h : Hass) (v lo hi : JSNum)
    (hh : self.hass = some h)
    (hlo : getProp self.config "min_temp" = .num lo)
    (hhi : getProp self.config "max_temp" = .num hi)
    (hv : v.isNaN = false) (hlo2 : lo.isNaN = false) (hhi2 : hi.isNaN = false)
    (hle : JSNum.lt hi lo = false) :
    (_setTarget self (.num v)).card._targetValue = .num (JSNum.max lo (JSNum.min hi v)) ∧
    ∃ c, (_setTarget self (.num v)).calls = [c] ∧
      (_setTarget self (.num v)).thrown = h.callService c ∧
      (c.data = [("entity_id", getProp self.config "entity_number"),
                 ("value", .num (JSNum.max lo (JSNum.min hi v)))] ∨
       c.data = [("entity_id", getProp self.config "entity_climate"),
                 ("temperature", .num (JSNum.max lo (JSNum.min hi v)))]) := by
  have hc := clampTarget_num self v lo hi hlo hhi hv hlo2 hhi2 hle
  unfold _setTarget
  simp only [hc]
  cases hn : truthy (getProp self.config "entity_number") with
  | true => simp [callService, hh, toNumber]
  | false => simp [callService, hh, toNumber]

/-- Instance of C2 on a host that rejects the call: with bounds 5 and 30, a
commit of 37 stores 30 and a commit of -2 stores 5. -/
theorem setTarget_clamp_law_witness :
    rejectingCard.hass = some { states := some sampleStates
                                callService := fun _ => some "service unavailable" } ∧
    getProp rejectingCard.config "min_temp" = .num (.fin 5) ∧
    getProp rejectingCard.config "max_temp" = .num (.fin 30) ∧
    JSNum.lt (.fin 30) (.fin 5) = false ∧
    JSNum.max (.fin 5) (JSNum.min (.fin 30) (.fin 37)) = .fin 30 ∧
    (_setTarget rejectingCard (.num (.fin 37))).card._targetValue
      = .num (JSNum.max (.fin 5) (JSNum.min (.fin 30) (.fin 37))) ∧
    JSNum.max (.fin 5) (JSNum.min (.fin 30) (.fin (-2))) = .fin 5 ∧
    (_setTarget rejectingCard (.num (.fin (-2)))).card._targetValue
      = .num (JSNum.max (.fin 5) (JSNum.min (.fin 30) (.fin (-2)))) :=
  ⟨rfl, by decide, by decide, by decide, by decide,
    (setTarget_clamp_law rejectingCard _ (.fin 37) (.fin 5) (.fin 30) rfl (by decide)
      (by decide) rfl rfl rfl (by decide)).1,
    by decide,
    (setTarget_clamp_law rejectingCard _ (.fin (-2)) (.fin 5) (.fin 30) rfl (by decide)
      (by decide) rfl rfl rfl (by decide)).1⟩

/-- With inverted numeric bounds (`max_temp < min_temp`) the two bound checks
of `_setTarget` always end at `max_temp`. -/
theorem clampTarget_num_inverted (s : Card) (v lo hi : JSNum)
    (hlo : getProp s.config "min_temp" = .num lo)
    (hhi : getProp s.config "max_temp" = .num hi)
    (hv : v.isNaN = false) (hlo2 : lo.isNaN = false) (hhi2 : hi.isNaN = false)
    (hgt : JSNum.lt hi lo = true) :
    clampTarget s (.num v) = .num hi := by
  unfold clampTarget jsGt
  rw [hlo, hhi]
  cases h1 : JSNum.lt v lo with
  | true =>
    simp only [jsLt_num, h1, if_true, hgt]
  | false =>
    simp only [jsLt_num, h1, Bool.false_eq_true, if_false]
    cases h2 : JSNum.lt hi v with
    | true => simp only [if_true]
    | false =>
      exfalso
      cases v <;> cases lo <;> cases hi <;> simp_all [JSNum.lt, JSNum.isNaN]
      linarith

/-- Counterexample to C3 as stated ("for every config"): with `min_temp: 40`,
`max_temp: 10` and no numeric target entity, a commit of 20 is routed to
`climate.set_temperature` with `temperature: 10`, while
`max(min_temp, min(max_temp, v))` is 40. -/
theorem dispatch_routing_counterexample :
    invertedBoundsCard.hass = some sampleHass ∧
    truthy (getProp invertedBoundsCard.config "entity_number") = false ∧
    getProp invertedBoundsCard.config "min_temp" = .num (.fin 40) ∧
    getProp invertedBoundsCard.config "max_temp" = .num (.fin 10) ∧
    (_setTarget invertedBoundsCard (.num (.fin 20))).calls =
      [{ domain := "climate", service := "set_temperature",
         data := [("entity_id", .str "climate.atrea"), ("temperature", .num (.fin 10))] }] ∧
    JSNum.max (.fin 40) (JSNum.min (.fin 10) (.fin 20)) = .fin 40 ∧
    (_setTarget invertedBoundsCard (.num (.fin 20))).calls ≠
      [{ domain := "climate", service := "set_temperature",
         data := [("entity_id", .str "climate.atrea"),
                  ("temperature", .num (JSNum.max (.fin 40) (JSNum.min (.fin 10) (.fin 20))))] }] :=
  ⟨rfl, by decide, by decide, by decide, by decide, by decide, by decide⟩

/-- C3 (amended routing law).  On any host: for every configuration whose
`min_temp = lo` and `max_temp = hi` are numbers and every commit of a number `v`,
the commit issues exactly `climate.set_temperature` for the climate entity when
`entity_number` is not configured, and exactly `number.set_value` for the numeric
entity when it is, and the payload (`temperature`, resp. `value`) is
`v' = max(lo, min(hi, v))` when `lo <= hi` (and `hi` when `hi < lo`).  For every
configuration, a mode selection `m` issues exactly `climate.set_hvac_mode` for
the climate entity with `hvac_mode = m` when `entity_select` is not configured,
and exactly `select.select_option` for the select entity with `option = m` when
it is. -/
theorem dispatch_routing_law (self : Card) (h : Hass) (hh : self.hass = some h) :
    (∀ v lo hi : JSNum,
      getProp self.config "min_temp" = .num lo → getProp self.config "max_temp" = .num hi →
      v.isNaN = false → lo.isNaN = false → hi.isNaN = false →
      (truthy (getProp self.config "entity_number") = false →
        (JSNum.lt hi lo = false →
          (_setTarget self (.num v)).calls =
            [{ domain := "climate", service := "set_temperature",
               data := [("entity_id", getProp self.config "entity_climate"),
                        ("temperature", .num (JSNum.max lo (JSNum.min hi v)))] }]) ∧
        (JSNum.lt hi lo = true →
          (_setTarget self (.num v)).calls =
            [{ domain := "climate", service := "set_temperature",
               data := [("entity_id", getProp self.config "entity_climate"),
                        ("temperature", .num hi)] }])) ∧
      (truthy (getProp self.config "entity_number") = true →
        (JSNum.lt hi lo = false →
          (_setTarget self (.num v)).calls =
            [{ domain := "number", service := "set_value",
               data := [("entity_id", getProp self.config "entity_number"),
                        ("value", .num (JSNum.max lo (JSNum.min hi v)))] }]) ∧
        (JSNum.lt hi lo = true →
          (_setTarget self (.num v)).calls =
            [{ domain := "number", service := "set_value",
               data := [("entity_id", getProp self.config "entity_number"),
                        ("value", .num hi)] }]))) ∧
    (∀ mode : JSVal,
      (truthy (getProp self.config "entity_select") = false →
        (_setHvacMode self mode).calls =
          [{ domain := "climate", service := "set_hvac_mode",
             data := [("entity_id", getProp self.config "entity_climate"),
                      ("hvac_mode", mode)] }]) ∧
      (truthy (getProp self.config "entity_select") = true →
        (_setHvacMode self mode).calls =
          [{ domain := "select", service := "select_option",
             data := [("entity_id", getProp self.config "entity_select"),
                      ("option", mode)] }])) := by
  constructor
  · intro v lo hi hlo hhi hv hlo2 hhi2
    constructor
    · intro hc
      constructor
      · intro hle
        have hcl := clampTarget_num self v lo hi hlo hhi hv hlo2 hhi2 hle
        simp [_setTarget, callService, hh, hc, hcl, toNumber]
      · intro hgt
        have hcl := clampTarget_num_inverted self v lo hi hlo hhi hv hlo2 hhi2 hgt
        simp [_setTarget, callService, hh, hc, hcl, toNumber]
    · intro hc
      constructor
      · intro hle
        have hcl := clampTarget_num self v lo hi hlo hhi hv hlo2 hhi2 hle
        simp [_setTarget, callService, hh, hc, hcl, toNumber]
      · intro hgt
        have hcl := clampTarget_num_inverted self v lo hi hlo hhi hv hlo2 hhi2 hgt
        simp [_setTarget, callService, hh, hc, hcl, toNumber]
  · intro mode
    constructor <;> intro hc
    · simp [_setHvacMode, callService, hh, hc]
    · simp [_setHvacMode, callService, hh, hc]

/-- Instance of the amended C3 with bounds 5 and 30 and a commit of 37, which is
clamped to 30: a card with a select entity and no numeric target entity sends
`temperature: 30` to the climate entity and mode `auto` to the select entity;
the sample card, with a numeric target entity and no select entity, sends
`value: 30` to the numeric entity and mode `auto` to the climate entity. -/
theorem dispatch_routing_law_witness :
    JSNum.max (.fin 5) (JSNum.min (.fin 30) (.fin 37)) = .fin 30 ∧
    (_setTarget selectCard (.num (.fin 37))).calls =
      [{ domain := "climate", service := "set_temperature",
         data := [("entity_id", .str "climate.atrea"),
                  ("temperature", .num (JSNum.max (.fin 5) (JSNum.min (.fin 30) (.fin 37))))] }] ∧
    (_setHvacMode selectCard (.str "auto")).calls =
      [{ domain := "select", service := "select_option",
         data := [("entity_id", .str "select.atrea_mode"), ("option", .str "auto")] }] ∧
    (_setTarget sampleCard (.num (.fin 37))).calls =
      [{ domain := "number", service := "set_value",
         data := [("entity_id", .str "number.atrea_target"),
                  ("value", .num (JSNum.max (.fin 5) (JSNum.min (.fin 30) (.fin 37))))] }] ∧
    (_setHvacMode sampleCard (.str "auto")).calls =
      [{ domain := "climate", service := "set_hvac_mode",
         data := [("entity_id", .str "climate.atrea"), ("hvac_mode", .str "auto")] }] :=
  ⟨by decide,
   (((dispatch_routing_law selectCard sampleHass rfl).1 (.fin 37) (.fin 5) (.fin 30)
      (by decide) (by decide) rfl rfl rfl).1 (by decide)).1 (by decide),
   ((dispatch_routing_law selectCard sampleHass rfl).2 (.str "auto")).2 (by decide),
   (((dispatch_routing_law sampleCard sampleHass rfl).1 (.fin 37) (.fin 5) (.fin 30)
      (by decide) (by decide) rfl rfl rfl).2 (by decide)).1 (by decide),
   ((dispatch_routing_law sampleCard sampleHass rfl).2 (.str "auto")).1 (by decide)⟩

/-- The failing input of C4: the fan entity of `sampleCard` has the
non-numeric state `unavailable` and no `percentage`.  The first run of `updated` stores
NaN as fan value; the second run on the same snapshot again reports
`fanValueChanged = true` and requests a repaint, because `NaN !== NaN`. -/
theorem updated_twice_fan_nan :
    _st sampleCard (getProp sampleCard.config "entity_fan")
      = some { state := .str "unavailable", attributes := some (JSObj.ofList []) } ∧
    (updated sampleCard true).card._fanValue = .num .nan ∧
    (updated (updated sampleCard true).card true).targetValueChanged = false ∧
    (updated (updated sampleCard true).card true).fanValueChanged = true ∧
    (updated (updated sampleCard true).card true).repaint = true :=
  ⟨rfl, by decide, by decide, by decide, by decide⟩


theorem updateTarget_config (s : Card) (cs : Option EntityState) :
    (updateTarget s cs).1.config = s.config := by
  unfold updateTarget
  dsimp only
  repeat' split
  all_goals rfl

theorem updateTarget_hass (s : Card) (cs : Option EntityState) :
    (updateTarget s cs).1.hass = s.hass := by
  unfold updateTarget
  dsimp only
  repeat' split
  all_goals rfl

theorem updateTarget_fan (s : Card) (cs : Option EntityState) :
    (updateTarget s cs).1._fanValue = s._fanValue := by
  unfold updateTarget
  dsimp only
  repeat' split
  all_goals rfl

/-- With a fan entity configured, the fan value after `updateFan` is the number
computed by `fanVal`. -/
theorem updateFan_value (s : Card) (hcfg : truthy (getProp s.config "entity_fan") = true) :
    (updateFan s).1._fanValue = .num (fanVal (_st s (getProp s.config "entity_fan"))) := by
  unfold updateFan
  simp only [hcfg, if_true]
  cases h : strictNe s._fanValue (.num (fanVal (_st s (getProp s.config "entity_fan")))) with
  | true => simp 
  | false =>
    simp
    exact ((strictNe_num_false _ _).1 h).1

/-- With a fan entity configured, the fan value after `updated` is the number
computed by `fanVal` from the fan entity of the snapshot. -/
theorem updated_fan_eq (self : Card) (hcfg : truthy (getProp self.config "entity_fan") = true) :
    (updated self true).card._fanValue =
      .num (fanVal (_st self (getProp self.config "entity_fan"))) := by
  have hc : (updateTarget (updateTempUnit self (_st self (getProp self.config "entity_climate")))
      (_st self (getProp self.config "entity_climate"))).1.config = self.config := by
    rw [updateTarget_config, updateTempUnit_config]
  have hh : (updateTarget (updateTempUnit self (_st self (getProp self.config "entity_climate")))
      (_st self (getProp self.config "entity_climate"))).1.hass = self.hass := by
    rw [updateTarget_hass, updateTempUnit_hass]
  simp only [updated, if_true]
  rw [updateFan_value _ (by rw [hc]; exact hcfg), hc, st_congr _ self hh]

/-- Counterexample to C5 as stated: the fan entity exposes `percentage: null`
(not a numeric percentage) and has the numeric state `75`, which is none of
`unknown`, `off`, `on`.  The claim's fallback gives 75; `updated` stores 0, the
conversion of the `null` percentage. -/
theorem updated_fan_fallback_counterexample :
    truthy (getProp (fanCard (some fanNullPercentage75)).config "entity_fan") = true ∧
    _st (fanCard (some fanNullPercentage75))
      (getProp (fanCard (some fanNullPercentage75)).config "entity_fan")
      = some fanNullPercentage75 ∧
    (fanNullPercentage75.attributes.map (fun attrs => getProp attrs "percentage"))
      = some .null ∧
    fanNullPercentage75.state = .str "75" ∧
    toNumber fanNullPercentage75.state = .fin 75 ∧
    (updated (fanCard (some fanNullPercentage75)) true).card._fanValue = .num (.fin 0) ∧
    (updated (fanCard (some fanNullPercentage75)) true).card._fanValue ≠ .num (.fin 75) :=
  ⟨by decide, rfl, by decide, rfl, by decide, by decide, by decide⟩

/-- C5 (amended fan fallback order).  On a hass change with a fan entity
configured, the fan value after `updated` is: (a) the `percentage` attribute
converted to a number whenever the fan entity exposes one, that is whenever its
`percentage` is not `undefined`, whatever the state is: a numeric `percentage` is
taken as it is and `null` counts as 0; (b) with no `percentage` exposed, the
state converted to a number when the state is none of `"unknown"`, `"off"`,
`"on"`; (c) with no `percentage` exposed and one of those three states, or with
the fan entity missing from the snapshot, 0.  In (a) and (b) the value is
assumed to convert to a number; what is stored otherwise is not stated here. -/
theorem updated_fan_fallback_order (self : Card)
    (hcfg : truthy (getProp self.config "entity_fan") = true) :
    (∀ (fs : EntityState) (attrs : JSObj),
      _st self (getProp self.config "entity_fan") = some fs → fs.attributes = some attrs →
      getProp attrs "percentage" ≠ .undefined →
      (toNumber (getProp attrs "percentage")).isNaN = false →
      (updated self true).card._fanValue = .num (toNumber (getProp attrs "percentage"))) ∧
    (∀ (fs : EntityState) (attrs : JSObj) (p : JSNum),
      _st self (getProp self.config "entity_fan") = some fs → fs.attributes = some attrs →
      getProp attrs "percentage" = .num p → p.isNaN = false →
      (updated self true).card._fanValue = .num p) ∧
    (∀ (fs : EntityState) (attrs : JSObj),
      _st self (getProp self.config "entity_fan") = some fs → fs.attributes = some attrs →
      getProp attrs "percentage" = .null →
      (updated self true).card._fanValue = .num (.fin 0)) ∧
    (∀ (fs : EntityState),
      _st self (getProp self.config "entity_fan") = some fs →
      (∀ attrs, fs.attributes = some attrs → getProp attrs "percentage" = .undefined) →
      fs.state ≠ .str "unknown" → fs.state ≠ .str "off" → fs.state ≠ .str "on" →
      (toNumber fs.state).isNaN = false →
      (updated self true).card._fanValue = .num (toNumber fs.state)) ∧
    (∀ (fs : EntityState),
      _st self (getProp self.config "entity_fan") = some fs →
      (∀ attrs, fs.attributes = some attrs → getProp attrs "percentage" = .undefined) →
      (fs.state = .str "unknown" ∨ fs.state = .str "off" ∨ fs.state = .str "on") →
      (updated self true).card._fanValue = .num (.fin 0)) ∧
    (_st self (getProp self.config "entity_fan") = none →
      (updated self true).card._fanValue = .num (.fin 0)) := by
  rw [updated_fan_eq self hcfg]
  refine ⟨?_, ?_, ?_, ?_, ?_, ?_⟩
  · intro fs attrs hst hattrs hp _
    have hne : strictNe (getProp attrs "percentage") .undefined = true := by
      cases h : getProp attrs "percentage" <;> simp_all [strictNe, strictEq]
    simp [hst, fanVal, hattrs, hne]
  · intro fs attrs p hst hattrs hp _
    simp [hst, fanVal, hattrs, hp, strictNe, strictEq, toNumber]
  · intro fs attrs hst hattrs hp
    simp [hst, fanVal, hattrs, hp, strictNe, strictEq, toNumber]
  · intro fs hst hno h1 h2 h3 _
    have e1 : strictNe fs.state (.str "unknown") = true := by
      cases h : strictNe fs.state (.str "unknown") with
      | true => rfl
      | false => exact absurd ((strictNe_str_false _ _).1 h) h1
    have e2 : strictNe fs.state (.str "off") = true := by
      cases h : strictNe fs.state (.str "off") with
      | true => rfl
      | false => exact absurd ((strictNe_str_false _ _).1 h) h2
    have e3 : strictNe fs.state (.str "on") = true := by
      cases h : strictNe fs.state (.str "on") with
      | true => rfl
      | false => exact absurd ((strictNe_str_false _ _).1 h) h3
    cases hattrs : fs.attributes with
    | none => simp [hst, fanVal, hattrs, e1, e2, e3]
    | some attrs =>
      simp only [hst, fanVal, hattrs, hno attrs hattrs, e1, e2, e3]
      simp [strictNe, strictEq]
  · intro fs hst hno hs
    have e : (strictNe fs.state (.str "unknown") && strictNe fs.state (.str "off")
        && strictNe fs.state (.str "on")) = false := by
      rcases hs with h | h | h <;> rw [h] <;> decide
    cases hattrs : fs.attributes with
    | none => simp [hst, fanVal, hattrs, e]
    | some attrs =>
      simp only [hst, fanVal, hattrs, hno attrs hattrs, e]
      simp [strictNe, strictEq]
  · intro hst
    simp [hst, fanVal]

/-- Instances of the amended C5: `percentage: 42` with state `on` gives 42,
`percentage: null` with state `75` gives 0, state `75` without `percentage`
gives 75, state `off` without `percentage` gives 0, and a missing fan entity
gives 0. -/
theorem updated_fan_fallback_order_witness :
    (updated (fanCard (some fanOn42)) true).card._fanValue = .num (.fin 42) ∧
    (updated (fanCard (some fanNullPercentage75)) true).card._fanValue = .num (.fin 0) ∧
    (updated (fanCard (some fanState75)) true).card._fanValue = .num (.fin 75) ∧
    (updated (fanCard (some fanOff)) true).card._fanValue = .num (.fin 0) ∧
    (updated (fanCard none) true).card._fanValue = .num (.fin 0) :=
  ⟨(updated_fan_fallback_order (fanCard (some fanOn42)) (by decide)).2.1 fanOn42
      (JSObj.ofList [("percentage", .num (.fin 42))]) (.fin 42) rfl rfl (by decide) rfl,
   (updated_fan_fallback_order (fanCard (some fanNullPercentage75)) (by decide)).2.2.1
      fanNullPercentage75 (JSObj.ofList [("percentage", .null)]) rfl rfl (by decide),
   (updated_fan_fallback_order (fanCard (some fanState75)) (by decide)).2.2.2.1 fanState75 rfl
      (fun attrs h => by cases h; rfl) (by decide) (by decide) (by decide) (by decide),
   (updated_fan_fallback_order (fanCard (some fanOff)) (by decide)).2.2.2.2.1 fanOff rfl
      (fun attrs h => by cases h; rfl) (Or.inr (Or.inl rfl)),
   (updated_fan_fallback_order (fanCard none) (by decide)).2.2.2.2.2 rfl⟩

/-- The message thrown by `setConfig` is fixed, and nothing else is thrown. -/
theorem setConfig_thrown_cases (self : Card) (config : Option JSObj) :
    ((setConfig self config).thrown = none ∧
      ∃ o, config = some o ∧ truthy (getProp o "entity_climate") = true ∧
        (setConfig self config).card = { self with config := spread (configLiteral o) o }) ∨
    ((setConfig self config).thrown = some "Configuration must include an entity_climate" ∧
      (setConfig self config).card = self ∧
      (config = none ∨ ∃ o, config = some o ∧ truthy (getProp o "entity_climate") = false)) := by
  cases config with
  | none => right; simp [setConfig]
  | some o =>
    cases h : truthy (getProp o "entity_climate") with
    | true => left; simp [setConfig, h]
    | false => right; simp [setConfig, h]

/-- For a value that is missing, `null` or a string, being falsy means being
missing, `null` or the empty string. -/
theorem truthy_id_false (v : JSVal)
    (hid : v = .undefined ∨ v = .null ∨ ∃ s, v = .str s) :
    truthy v = false ↔ (v = .undefined ∨ v = .null ∨ v = .str "") := by
  rcases hid with h | h | ⟨s, h⟩ <;> subst h <;> simp [truthy]

/-- C9.  For a configuration whose `entity_climate`, when given, is an entity
identifier (a string): `setConfig` throws "Configuration must include an
entity_climate" exactly when the configuration is missing or its
`entity_climate` is missing, `null` or the empty string; when it throws the
instance (and so its stored config) is unchanged; in every other case it
returns normally and the stored config has the supplied `entity_climate`. -/
theorem setConfig_fails_iff (self : Card) (config : Option JSObj)
    (hid : ∀ o, config = some o →
      (getProp o "entity_climate" = .undefined ∨ getProp o "entity_climate" = .null ∨
        ∃ s, getProp o "entity_climate" = .str s)) :
    ((setConfig self config).thrown = some "Configuration must include an entity_climate" ↔
      (config = none ∨ ∃ o, config = some o ∧
        (getProp o "entity_climate" = .undefined ∨ getProp o "entity_climate" = .null ∨
          getProp o "entity_climate" = .str ""))) ∧
    ((setConfig self config).thrown ≠ none → (setConfig self config).card = self) ∧
    ((setConfig self config).thrown = none ∨
      (setConfig self config).thrown = some "Configuration must include an entity_climate") ∧
    (∀ o, config = some o → (setConfig self config).thrown = none →
      getProp (setConfig self config).card.config "entity_climate"
        = getProp o "entity_climate") := by
  cases config with
  | none => simp [setConfig]
  | some o =>
    have hf := truthy_id_false (getProp o "entity_climate") (hid o rfl)
    cases h : truthy (getProp o "entity_climate") with
    | true =>
      have hn : ¬ (getProp o "entity_climate" = .undefined ∨ getProp o "entity_climate" = .null ∨
          getProp o "entity_climate" = .str "") := by
        intro hc
        rw [hf.2 hc] at h
        exact Bool.noConfusion h
      simp only [setConfig, h]
      refine ⟨?_, ?_, ?_, ?_⟩
      · simp [hn]
      · simp
      · simp
      · intro o2 ho2 _
        injection ho2 with ho2
        subst ho2
        cases ho : o "entity_climate" with
        | none => simp [getProp, ho, truthy] at h
        | some v => simp [getProp, spread, ho]
    | false =>
      have hy := hf.1 h
      simp only [setConfig, h]
      refine ⟨?_, ?_, ?_, ?_⟩
      · simp [hy]
      · simp
      · simp
      · intro o2 _ hc
        simp at hc

/-- Instances of C9: an empty `entity_climate` makes `setConfig` throw and
leaves the instance as constructed; a named climate entity is accepted. -/
theorem setConfig_fails_iff_witness :
    getProp (JSObj.ofList [("entity_climate", .str "")]) "entity_climate" = .str "" ∧
    (setConfig Card.new (some (JSObj.ofList [("entity_climate", .str "")]))).thrown
      = some "Configuration must include an entity_climate" ∧
    (setConfig Card.new (some zeroMinConfig)).thrown = none :=
  ⟨by decide,
   (setConfig_fails_iff Card.new (some (JSObj.ofList [("entity_climate", .str "")]))
      (fun o h => by cases h; exact Or.inr (Or.inr ⟨"", by decide⟩))).1.2
      (Or.inr ⟨_, rfl, Or.inr (Or.inr (by decide))⟩),
   ((setConfig_fails_iff Card.new (some zeroMinConfig)
      (fun o h => by cases h; exact Or.inr (Or.inr ⟨"climate.atrea", by decide⟩))).2.2.1).resolve_right
      (by decide)⟩

/-- C10 (configuration defaults).  For every configuration that `setConfig`
accepts: every optional key the user left out is stored with its documented
default (title "Atrea Recuperation"; entity_number, entity_fan, entity_select
`null`; sensors and buttons empty lists; temp_step 0.5; min_temp 5; max_temp
30), and every key the user supplied is stored with exactly the supplied value,
falsy values included. -/
theorem setConfig_defaults (self : Card) (o : JSObj)
    (hok : (setConfig self (some o)).thrown = none) :
    (∀ k d, documentedDefaults k = some d → o k = none →
      (setConfig self (some o)).card.config k = some d) ∧
    (∀ k v, o k = some v → (setConfig self (some o)).card.config k = some v) := by
  have hacc : truthy (getProp o "entity_climate") = true := by
    cases h : truthy (getProp o "entity_climate") with
    | true => rfl
    | false => simp [setConfig, h] at hok
  constructor
  · intro k d hd hk
    simp only [setConfig, hacc, Bool.not_true, Bool.false_eq_true, if_false, spread, hk]
    simp only [documentedDefaults, JSObj.ofList, List.reverse_cons, List.reverse_nil,
      List.nil_append, List.cons_append, List.find?_cons, List.find?_nil] at hd
    simp only [configLiteral, JSObj.ofList, List.reverse_cons, List.reverse_nil,
      List.nil_append, List.cons_append, List.find?_cons, List.find?_nil]
    by_cases h0 : k = "max_temp"
    · subst h0
      simp [getProp, hk, jsOr, truthy] at hd ⊢
      exact hd
    by_cases h1 : k = "min_temp"
    · subst h1
      simp [getProp, hk, jsOr, truthy] at hd ⊢
      exact hd
    by_cases h2 : k = "temp_step"
    · subst h2
      simp [getProp, hk, jsOr, truthy] at hd ⊢
      exact hd
    by_cases h3 : k = "buttons"
    · subst h3
      simp [getProp, hk, jsOr, truthy] at hd ⊢
      exact hd
    by_cases h4 : k = "sensors"
    · subst h4
      simp [getProp, hk, jsOr, truthy] at hd ⊢
      exact hd
    by_cases h5 : k = "entity_select"
    · subst h5
      simp [getProp, hk, jsOr, truthy] at hd ⊢
      exact hd
    by_cases h6 : k = "entity_fan"
    · subst h6
      simp [getProp, hk, jsOr, truthy] at hd ⊢
      exact hd
    by_cases h7 : k = "entity_number"
    · subst h7
      simp [getProp, hk, jsOr, truthy] at hd ⊢
      exact hd
    by_cases h8 : k = "title"
    · subst h8
      simp [getProp, hk, jsOr, truthy] at hd ⊢
      exact hd
    exfalso
    have e0 : ("max_temp" == k) = false := by
      rw [beq_eq_false_iff_ne]
      exact fun h => h0 h.symm
    have e1 : ("min_temp" == k) = false := by
      rw [beq_eq_false_iff_ne]
      exact fun h => h1 h.symm
    have e2 : ("temp_step" == k) = false := by
      rw [beq_eq_false_iff_ne]
      exact fun h => h2 h.symm
    have e3 : ("buttons" == k) = false := by
      rw [beq_eq_false_iff_ne]
      exact fun h => h3 h.symm
    have e4 : ("sensors" == k) = false := by
      rw [beq_eq_false_iff_ne]
      exact fun h => h4 h.symm
    have e5 : ("entity_select" == k) = false := by
      rw [beq_eq_false_iff_ne]
      exact fun h => h5 h.symm
    have e6 : ("entity_fan" == k) = false := by
      rw [beq_eq_false_iff_ne]
      exact fun h => h6 h.symm
    have e7 : ("entity_number" == k) = false := by
      rw [beq_eq_false_iff_ne]
      exact fun h => h7 h.symm
    have e8 : ("title" == k) = false := by
      rw [beq_eq_false_iff_ne]
      exact fun h => h8 h.symm
    simp [e0, e1, e2, e3, e4, e5, e6, e7, e8] at hd
  · intro k v hk
    simp [setConfig, hacc, spread, hk]

/-- Instance of C10: a configuration that names the climate entity and sets
`min_temp: 0` is stored with `min_temp` 0, and with the defaults for the omitted
`max_temp`, `temp_step`, `title` and `entity_number`. -/
theorem setConfig_defaults_witness :
    (setConfig Card.new (some zeroMinConfig)).thrown = none ∧
    (setConfig Card.new (some zeroMinConfig)).card.config "min_temp" = some (.num (.fin 0)) ∧
    (setConfig Card.new (some zeroMinConfig)).card.config "max_temp" = some (.num (.fin 30)) ∧
    (setConfig Card.new (some zeroMinConfig)).card.config "temp_step"
      = some (.num (.fin (1 / 2))) ∧
    (setConfig Card.new (some zeroMinConfig)).card.config "title"
      = some (.str "Atrea Recuperation") ∧
    (setConfig Card.new (some zeroMinConfig)).card.config "entity_number" = some .null :=
  ⟨by decide,
   (setConfig_defaults Card.new zeroMinConfig (by decide)).2 "min_temp" _ (by decide),
   (setConfig_defaults Card.new zeroMinConfig (by decide)).1 "max_temp" _ (by decide) (by decide),
   (setConfig_defaults Card.new zeroMinConfig (by decide)).1 "temp_step" _ rfl (by decide),
   (setConfig_defaults Card.new zeroMinConfig (by decide)).1 "title" _ (by decide) (by decide),
   (setConfig_defaults Card.new zeroMinConfig (by decide)).1 "entity_number" _ (by decide)
     (by decide)⟩

/-! ## Where a repeated snapshot is stable -/

/-- A guarded number write, repeated on its own result, finds nothing to
write. -/
theorem write_again (prev prev2 : JSVal) (n : JSNum)
    (h : prev2 = if (!n.isNaN && strictNe prev (.num n)) = true then .num n else prev) :
    (!n.isNaN && strictNe prev2 (.num n)) = false := by
  cases hn : n.isNaN with
  | true => simp
  | false =>
    cases hp : strictNe prev (.num n) with
    | true =>
      simp [hn, hp] at h
      simp [h, (strictNe_num_false (.num n) n).2 ⟨rfl, hn⟩]
    | false =>
      simp [hn, hp] at h
      simp [h, hp]

/-- Running `updateTarget` on an instance that already holds the target computed
from the same snapshot and configuration changes nothing. -/
theorem updateTarget_again (s s2 : Card) (cs : Option EntityState)
    (hc : s2.config = s.config) (hh : s2.hass = s.hass)
    (ht : s2._targetValue = (updateTarget s cs).1._targetValue) :
    updateTarget s2 cs = (s2, false) := by
  unfold updateTarget at ht ⊢
  rw [hc, st_congr s2 s hh]
  dsimp only at ht ⊢
  cases hn : truthy (getProp s.config "entity_number") with
  | true =>
    simp only [hn, if_true] at ht ⊢
    cases hst : _st s (getProp s.config "entity_number") with
    | none => rfl
    | some nst =>
      simp only [hst] at ht ⊢
      cases hu : strictNe nst.state (.str "unknown") with
      | false => simp
      | true =>
        simp only [hu, if_true] at ht ⊢
        have hw := write_again s._targetValue s2._targetValue (toNumber nst.state)
          (by rw [ht]; split <;> rfl)
        simp [hw]
  | false =>
    simp only [hn, Bool.false_eq_true, if_false] at ht ⊢
    cases cs with
    | none => rfl
    | some cst =>
      simp only at ht ⊢
      cases ha : cst.attributes with
      | none => rfl
      | some attrs =>
        simp only [ha] at ht ⊢
        split
        · have hw := write_again s._targetValue s2._targetValue
            (toNumber (nullish (nullish (getProp attrs "temperature")
              (getProp attrs "target_temperature")) (getProp attrs "current_temperature")))
            (by
              rw [ht]
              rw [if_pos (by assumption)]
              split <;> rfl)
          simp [hw]
        · rfl

theorem updateTarget_tempUnit (s : Card) (cs : Option EntityState) :
    (updateTarget s cs).1._tempUnit = s._tempUnit := by
  unfold updateTarget
  dsimp only
  repeat' split
  all_goals rfl

theorem updateFan_config (s : Card) : (updateFan s).1.config = s.config := by
  unfold updateFan
  dsimp only
  repeat' split
  all_goals rfl

theorem updateFan_hass (s : Card) : (updateFan s).1.hass = s.hass := by
  unfold updateFan
  dsimp only
  repeat' split
  all_goals rfl

theorem updateFan_tempUnit (s : Card) : (updateFan s).1._tempUnit = s._tempUnit := by
  unfold updateFan
  dsimp only
  repeat' split
  all_goals rfl

/-- Running `updateTempUnit` on an instance that already holds the unit computed
from the same climate state changes nothing. -/
theorem updateTempUnit_again (s s2 : Card) (cs : Option EntityState)
    (h : s2._tempUnit = (updateTempUnit s cs)._tempUnit) :
    updateTempUnit s2 cs = s2 := by
  unfold updateTempUnit at h ⊢
  cases cs with
  | none => rfl
  | some cst =>
    simp only at h ⊢
    cases ha : cst.attributes with
    | none => rfl
    | some attrs =>
      simp only [ha] at h ⊢
      split
      · rw [if_pos (by assumption)] at h
        cases s2
        simp_all
      · rw [if_neg (by assumption)] at h
        cases s2
        simp_all

/-- Running `updateFan` on an instance that already holds the fan value computed
from the same snapshot and configuration changes nothing, provided that value
is not NaN. -/
theorem updateFan_again (s s2 : Card) (hc : s2.config = s.config) (hh : s2.hass = s.hass)
    (hf : s2._fanValue = (updateFan s).1._fanValue)
    (hnum : truthy (getProp s.config "entity_fan") = true →
      (fanVal (_st s (getProp s.config "entity_fan"))).isNaN = false) :
    updateFan s2 = (s2, false) := by
  cases hn : truthy (getProp s.config "entity_fan") with
  | false => simp [updateFan, hc, hn]
  | true =>
    rw [updateFan_value s hn] at hf
    unfold updateFan
    rw [hc, st_congr s2 s hh]
    simp only [hn, if_true]
    rw [(strictNe_num_false _ _).2 ⟨hf, hnum hn⟩]
    simp

/-- The result of `updated` on a hass change, spelled out. -/
theorem updated_true_eq (s : Card) :
    updated s true =
      { card := (updateFan (updateTarget
          (updateTempUnit s (_st s (getProp s.config "entity_climate")))
          (_st s (getProp s.config "entity_climate"))).1).1,
        targetValueChanged := (updateTarget
          (updateTempUnit s (_st s (getProp s.config "entity_climate")))
          (_st s (getProp s.config "entity_climate"))).2,
        fanValueChanged := (updateFan (updateTarget
          (updateTempUnit s (_st s (getProp s.config "entity_climate")))
          (_st s (getProp s.config "entity_climate"))).1).2,
        repaint := (updateTarget
          (updateTempUnit s (_st s (getProp s.config "entity_climate")))
          (_st s (getProp s.config "entity_climate"))).2 ||
          (updateFan (updateTarget
          (updateTempUnit s (_st s (getProp s.config "entity_climate")))
          (_st s (getProp s.config "entity_climate"))).1).2 } := by
  simp [updated]

/-- A second run of `updated` on the same snapshot never changes the target
again, and changes nothing at all when the fan value computed from the snapshot
is a number (or no fan entity is configured). -/
theorem updated_again (self : Card) :
    (updated (updated self true).card true).targetValueChanged = false ∧
    (updated (updated self true).card true).card._targetValue
      = (updated self true).card._targetValue ∧
    ((truthy (getProp self.config "entity_fan") = true →
        (fanVal (_st self (getProp self.config "entity_fan"))).isNaN = false) →
      (updated (updated self true).card true).fanValueChanged = false ∧
      (updated (updated self true).card true).repaint = false ∧
      (updated (updated self true).card true).card = (updated self true).card) := by
  have hc : (updated self true).card.config = self.config := by
    simp [updated, updateFan_config, updateTarget_config, updateTempUnit_config]
  have hh : (updated self true).card.hass = self.hass := by
    simp [updated, updateFan_hass, updateTarget_hass, updateTempUnit_hass]
  have hu : updateTempUnit (updated self true).card
      (_st self (getProp self.config "entity_climate")) = (updated self true).card := by
    apply updateTempUnit_again self
    simp [updated, updateFan_tempUnit, updateTarget_tempUnit]
  have ht : updateTarget (updated self true).card
      (_st self (getProp self.config "entity_climate")) = ((updated self true).card, false) := by
    apply updateTarget_again (updateTempUnit self (_st self (getProp self.config "entity_climate")))
    · rw [hc, updateTempUnit_config]
    · rw [hh, updateTempUnit_hass]
    · simp [updated, updateFan_target]
  have hst : _st (updated self true).card (getProp self.config "entity_climate")
      = _st self (getProp self.config "entity_climate") := st_congr _ _ hh _
  have e : updated (updated self true).card true =
      { card := (updateFan (updated self true).card).1, targetValueChanged := false,
        fanValueChanged := (updateFan (updated self true).card).2,
        repaint := (updateFan (updated self true).card).2 } := by
    rw [updated_true_eq (updated self true).card, hc, hst, hu, ht]
    simp only [Bool.false_or]
  refine ⟨?_, ?_, ?_⟩
  · rw [e]
  · rw [e]; exact updateFan_target _
  · intro hnum
    have hf : updateFan (updated self true).card = ((updated self true).card, false) := by
      apply updateFan_again
        (updateTarget (updateTempUnit self (_st self (getProp self.config "entity_climate")))
          (_st self (getProp self.config "entity_climate"))).1
      · rw [hc, updateTarget_config, updateTempUnit_config]
      · rw [hh, updateTarget_hass, updateTempUnit_hass]
      · simp [updated]
      · rw [updateTarget_config, updateTempUnit_config,
          st_congr _ self (by rw [updateTarget_hass, updateTempUnit_hass])]
        exact hnum
    rw [e, hf]
    exact ⟨rfl, rfl, rfl⟩

/-! ## Configuration invariant, dispatch count, fan parse errors, missing climate -/

/-- An accepted configuration is stored as the literal overridden by the
supplied properties. -/
theorem setConfig_stored (self : Card) (o : JSObj)
    (hok : (setConfig self (some o)).thrown = none) :
    (setConfig self (some o)).card.config = spread (configLiteral o) o := by
  cases h : truthy (getProp o "entity_climate") with
  | true => simp [setConfig, h]
  | false => simp [setConfig, h] at hok

/-- Counterexample to C11 as stated: `setConfig` accepts a configuration with
`min_temp: 40` and `max_temp: 10` and stores exactly these bounds, so the stored
configuration has `min_temp > max_temp`. -/
theorem setConfig_invariant_counterexample :
    (setConfig Card.new (some invertedBoundsConfig)).thrown = none ∧
    getProp (setConfig Card.new (some invertedBoundsConfig)).card.config "min_temp"
      = .num (.fin 40) ∧
    getProp (setConfig Card.new (some invertedBoundsConfig)).card.config "max_temp"
      = .num (.fin 10) ∧
    JSNum.le (.fin 40) (.fin 10) = false ∧
    widgetConfigInvariant (setConfig Card.new (some invertedBoundsConfig)).card.config
      = false :=
  ⟨by decide, by decide, by decide, by decide, by decide⟩

/-- C11 (amended).  `setConfig` does not check the bounds.  For every accepted
configuration: if `min_temp`, `max_temp` and `temp_step` are all omitted, the
stored configuration has the defaults 5, 30 and 0.5 and satisfies
`min_temp <= max_temp` and `temp_step > 0`; if all three are supplied as
numbers, the stored configuration satisfies the invariant exactly when the
supplied numbers do. -/
theorem setConfig_invariant_amended (self : Card) (o : JSObj)
    (hok : (setConfig self (some o)).thrown = none) :
    (o "min_temp" = none → o "max_temp" = none → o "temp_step" = none →
      widgetConfigInvariant (setConfig self (some o)).card.config = true) ∧
    (∀ lo hi step : JSNum, o "min_temp" = some (.num lo) → o "max_temp" = some (.num hi) →
      o "temp_step" = some (.num step) →
      widgetConfigInvariant (setConfig self (some o)).card.config
        = (JSNum.le lo hi && JSNum.lt (.fin 0) step)) := by
  rw [setConfig_stored self o hok]
  constructor
  · intro h1 h2 h3
    have e1 : getProp (spread (configLiteral o) o) "min_temp" = .num (.fin 5) := by
      simp [getProp, spread, h1, configLiteral, JSObj.ofList, jsOr, truthy]
    have e2 : getProp (spread (configLiteral o) o) "max_temp" = .num (.fin 30) := by
      simp [getProp, spread, h2, configLiteral, JSObj.ofList, jsOr, truthy]
    have e3 : getProp (spread (configLiteral o) o) "temp_step" = .num (.fin (1 / 2)) := by
      simp [getProp, spread, h3, configLiteral, JSObj.ofList, jsOr, truthy]
    simp only [widgetConfigInvariant, e1, e2, e3]
    norm_num [JSNum.le, JSNum.lt, JSNum.eq]
  · intro lo hi step h1 h2 h3
    simp [widgetConfigInvariant, getProp, spread, h1, h2, h3]

/-- Instance of the amended C11: a configuration that only names the climate
entity is stored with bounds that satisfy the invariant. -/
theorem setConfig_invariant_amended_witness :
    (setConfig Card.new (some (JSObj.ofList [("entity_climate", .str "climate.atrea")]))).thrown
      = none ∧
    widgetConfigInvariant
      (setConfig Card.new (some (JSObj.ofList [("entity_climate", .str "climate.atrea")]))).card.config
      = true :=
  ⟨by decide,
   (setConfig_invariant_amended Card.new
      (JSObj.ofList [("entity_climate", .str "climate.atrea")]) (by decide)).1
      (by decide) (by decide) (by decide)⟩

/-- C12 (dispatch count).  On any host, every gesture issues exactly one
remote call, with one of the six (domain, operation) pairs: a temperature commit
whose value converts to a number issues `number.set_value` or
`climate.set_temperature`; a mode selection issues `select.select_option` or
`climate.set_hvac_mode`; a fan change with a fan entity configured issues
`fan.set_percentage`; a button press for `e` issues `button.press` for `e`.
A temperature commit whose value is not a number, and a fan change with no fan
entity configured, issue no call and leave the instance unchanged. -/
theorem dispatch_count (self : Card) (h : Hass) (hh : self.hass = some h) :
    (∀ value, (toNumber value).isNaN = false →
      ∃ c, (_onSliderChange self value).calls = [c] ∧
        ((c.domain = "number" ∧ c.service = "set_value") ∨
         (c.domain = "climate" ∧ c.service = "set_temperature"))) ∧
    (∀ value, (toNumber value).isNaN = true →
      (_onSliderChange self value).calls = [] ∧ (_onSliderChange self value).card = self) ∧
    (∀ mode, ∃ c, (_setHvacMode self mode).calls = [c] ∧
        ((c.domain = "select" ∧ c.service = "select_option") ∨
         (c.domain = "climate" ∧ c.service = "set_hvac_mode"))) ∧
    (∀ value, truthy (getProp self.config "entity_fan") = true →
      ∃ c, (_setFanPercentage self value).calls = [c] ∧
        c.domain = "fan" ∧ c.service = "set_percentage") ∧
    (∀ value, truthy (getProp self.config "entity_fan") = false →
      (_setFanPercentage self value).calls = [] ∧
      (_setFanPercentage self value).card = self) ∧
    (∀ e, ∃ c, (_pressButton self e).calls = [c] ∧
        c.domain = "button" ∧ c.service = "press" ∧ c.data = [("entity_id", e)]) := by
  refine ⟨?_, ?_, ?_, ?_, ?_, ?_⟩
  · intro value hv
    cases hn : truthy (getProp self.config "entity_number") with
    | true => simp [_onSliderChange, hv, _setTarget, callService, hh, hn]
    | false => simp [_onSliderChange, hv, _setTarget, callService, hh, hn]
  · intro value hv
    simp [_onSliderChange, hv]
  · intro mode
    cases hn : truthy (getProp self.config "entity_select") with
    | true => simp [_setHvacMode, callService, hh, hn]
    | false => simp [_setHvacMode, callService, hh, hn]
  · intro value hf
    simp [_setFanPercentage, callService, hh, hf]
  · intro value hf
    simp [_setFanPercentage, hf]
  · intro e
    simp [_pressButton, callService, hh]

/-- Instance of C12 on the sample card: a commit of `21` issues one
`number.set_value` call, a commit of `abc` none. -/
theorem dispatch_count_witness :
    sampleCard.hass = some sampleHass ∧
    (toNumber (.str "21")).isNaN = false ∧
    (∃ c, (_onSliderChange sampleCard (.str "21")).calls = [c] ∧
      ((c.domain = "number" ∧ c.service = "set_value") ∨
       (c.domain = "climate" ∧ c.service = "set_temperature"))) ∧
    (toNumber (.str "abc")).isNaN = true ∧
    (_onSliderChange sampleCard (.str "abc")).calls = [] :=
  ⟨rfl, by decide,
   (dispatch_count sampleCard sampleHass rfl).1 (.str "21") (by decide),
   by decide,
   ((dispatch_count sampleCard sampleHass rfl).2.1 (.str "abc") (by decide)).1⟩

/-- The failing input of C13: the card holds fan value 40 and the fan entity
turns `unavailable` (no `percentage`).  `updated` does not keep 40: it stores
NaN and reports `fanValueChanged = true`. -/
theorem updated_fan_parse_error :
    truthy (getProp staleFanCard.config "entity_fan") = true ∧
    _st staleFanCard (getProp staleFanCard.config "entity_fan") = some fanUnavailable ∧
    toNumber fanUnavailable.state = .nan ∧
    staleFanCard._fanValue = .num (.fin 40) ∧
    (updated staleFanCard true).card._fanValue = .num .nan ∧
    (updated staleFanCard true).fanValueChanged = true :=
  ⟨by decide, rfl, by decide, rfl, by decide, by decide⟩

/-- Counterexample to C14 as stated: the climate entity is missing from the
snapshot, the numeric target entity reports `22`, the prior target is unset;
`updated` sets the target to 22. -/
theorem updated_missing_climate_counterexample :
    _st noClimateCard (getProp noClimateCard.config "entity_climate") = none ∧
    noClimateCard._targetValue = .null ∧
    (updated noClimateCard true).card._targetValue = .num (.fin 22) ∧
    (updated noClimateCard true).targetValueChanged = true :=
  ⟨rfl, rfl, by decide, by decide⟩

/-- C14 (amended).  On a hass change with the climate entity missing from the
snapshot: the display unit keeps its prior value; the target value keeps its
prior value when no numeric target entity is configured, and a configured,
present numeric target entity whose state converts to a number still sets it;
the fan value keeps its prior value when no fan entity is configured, and a
configured fan entity still sets it. -/
theorem updated_missing_climate (self : Card)
    (hcl : _st self (getProp self.config "entity_climate") = none) :
    (updated self true).card._tempUnit = self._tempUnit ∧
    (truthy (getProp self.config "entity_number") = false →
      (updated self true).card._targetValue = self._targetValue ∧
      (updated self true).targetValueChanged = false) ∧
    (∀ nst, truthy (getProp self.config "entity_number") = true →
      _st self (getProp self.config "entity_number") = some nst →
      (toNumber nst.state).isNaN = false →
      (updated self true).card._targetValue = .num (toNumber nst.state)) ∧
    (truthy (getProp self.config "entity_fan") = false →
      (updated self true).card._fanValue = self._fanValue ∧
      (updated self true).fanValueChanged = false) ∧
    (truthy (getProp self.config "entity_fan") = true →
      (updated self true).card._fanValue
        = .num (fanVal (_st self (getProp self.config "entity_fan")))) := by
  have hu : updateTempUnit self none = self := rfl
  refine ⟨?_, ?_, ?_, ?_, ?_⟩
  · rw [updated_true_eq, hcl, hu, updateFan_tempUnit, updateTarget_tempUnit]
  · intro hn
    have ht : updateTarget self none = (self, false) := by
      simp [updateTarget, hn]
    rw [updated_true_eq, hcl, hu, ht]
    exact ⟨updateFan_target _, rfl⟩
  · intro nst hn hst hnan
    rw [updated_target_eq, hcl, hu]
    exact updateTarget_number self none nst hn hst hnan
  · intro hf
    have hc : (updateTarget self none).1.config = self.config := updateTarget_config _ _
    have hfan : updateFan (updateTarget self none).1 = ((updateTarget self none).1, false) := by
      simp [updateFan, hc, hf]
    rw [updated_true_eq, hcl, hu, hfan]
    exact ⟨updateTarget_fan _ _, rfl⟩
  · intro hf
    exact updated_fan_eq self hf

/-- Instance of the amended C14: with only a climate entity configured and that
entity missing, unit, target and fan value stay as they were. -/
theorem updated_missing_climate_witness :
    _st bareMissingCard (getProp bareMissingCard.config "entity_climate") = none ∧
    truthy (getProp bareMissingCard.config "entity_number") = false ∧
    truthy (getProp bareMissingCard.config "entity_fan") = false ∧
    (updated bareMissingCard true).card._tempUnit = .str "°F" ∧
    (updated bareMissingCard true).card._targetValue = .num (.fin 19) ∧
    (updated bareMissingCard true).card._fanValue = .num (.fin 40) :=
  ⟨rfl, by decide, by decide,
   (updated_missing_climate bareMissingCard rfl).1,
   ((updated_missing_climate bareMissingCard rfl).2.1 (by decide)).1,
   ((updated_missing_climate bareMissingCard rfl).2.2.2.1 (by decide)).1⟩

/-! ## Displayed target -/

/-- The failing input of C17: the stored target is unset and the configured
numeric target entity reports `unknown`.  `render` computes NaN as the target to
display, while `updated` on the same snapshot leaves the target unset. -/
theorem render_target_unknown :
    unknownTargetCard._targetValue = .null ∧
    truthy (getProp unknownTargetCard.config "entity_number") = true ∧
    _st unknownTargetCard (getProp unknownTargetCard.config "entity_number")
      = some unknownNumberState ∧
    renderTarget unknownTargetCard = .num .nan ∧
    (updated unknownTargetCard true).card._targetValue = .null ∧
    renderTarget unknownTargetCard ≠ (updated unknownTargetCard true).card._targetValue :=
  ⟨rfl, by decide, rfl, by decide, by decide, by decide⟩

/-! ## Binary64 rounding -/

theorem roundHalfEven_intCast (n : ℤ) : roundHalfEven (n : ℚ) = n := by
  simp [roundHalfEven]

theorem roundHalfEven_floor_le (x : ℚ) : ⌊x⌋ ≤ roundHalfEven x := by
  unfold roundHalfEven
  split_ifs <;> omega

theorem roundHalfEven_le_floor_succ (x : ℚ) : roundHalfEven x ≤ ⌊x⌋ + 1 := by
  unfold roundHalfEven
  split_ifs <;> omega

theorem roundHalfEven_mono {x y : ℚ} (h : x ≤ y) : roundHalfEven x ≤ roundHalfEven y := by
  have hf : ⌊x⌋ ≤ ⌊y⌋ := Int.floor_mono h
  rcases lt_or_eq_of_le hf with hlt | heq
  · calc roundHalfEven x ≤ ⌊x⌋ + 1 := roundHalfEven_le_floor_succ x
      _ ≤ ⌊y⌋ := hlt
      _ ≤ roundHalfEven y := roundHalfEven_floor_le y
  · unfold roundHalfEven
    rw [heq]
    split_ifs <;> first | omega | (exfalso; linarith)

theorem roundHalfEven_le_of_le_int {x : ℚ} {n : ℤ} (h : x ≤ n) : roundHalfEven x ≤ n := by
  have := roundHalfEven_mono h
  rwa [roundHalfEven_intCast] at this

theorem roundHalfEven_ge_of_int_le {x : ℚ} {n : ℤ} (h : (n : ℚ) ≤ x) : n ≤ roundHalfEven x := by
  have := roundHalfEven_mono h
  rwa [roundHalfEven_intCast] at this

theorem roundHalfEven_eq_of_near {x : ℚ} {m : ℤ} (h1 : (m : ℚ) - 1 / 2 < x)
    (h2 : x < (m : ℚ) + 1 / 2) : roundHalfEven x = m := by
  have hfl : ⌊x⌋ = m ∨ ⌊x⌋ = m - 1 := by
    have h3 : (m : ℚ) - 1 < x := by linarith
    have h4 : x < (m : ℚ) + 1 := by linarith
    have a1 : m - 1 ≤ ⌊x⌋ := by
      rw [Int.le_floor]; push_cast; linarith
    have a2 : ⌊x⌋ < m + 1 := by
      rw [Int.floor_lt]; push_cast; linarith
    omega
  have hx1 : (⌊x⌋ : ℚ) ≤ x := Int.floor_le x
  have hx2 : x < (⌊x⌋ : ℚ) + 1 := Int.lt_floor_add_one x
  unfold roundHalfEven
  rcases hfl with hf | hf
  · rw [hf] at hx1 hx2 ⊢
    split_ifs <;> first | rfl | (exfalso; linarith)
  · rw [hf] at hx1 hx2 ⊢
    push_cast at hx1 hx2 ⊢
    split_ifs <;> first | omega | (exfalso; linarith)

theorem two_zpow_pos (e : ℤ) : (0 : ℚ) < 2 ^ e := zpow_pos (by norm_num) e

theorem two_zpow_mono {a b : ℤ} (h : a ≤ b) : (2 : ℚ) ^ a ≤ 2 ^ b :=
  zpow_le_zpow_right₀ (by norm_num) h

theorem two_zpow_add (a b : ℤ) : (2 : ℚ) ^ (a + b) = 2 ^ a * 2 ^ b :=
  zpow_add₀ (by norm_num) a b

/-- The binary exponent of a positive rational, from a bracket by powers of 2. -/
theorem log2_eq {q : ℚ} {k : ℤ} (hq : 0 < q) (h1 : (2 : ℚ) ^ k ≤ q) (h2 : q < 2 ^ (k + 1)) :
    Int.log 2 q = k := by
  have a1 : k ≤ Int.log 2 q := by
    rw [← Int.zpow_le_iff_le_log (by norm_num) hq]
    simpa using h1
  have a2 : Int.log 2 q < k + 1 := by
    rw [← Int.lt_zpow_iff_log_lt (by norm_num) hq]
    simpa using h2
  omega

theorem log2_le_self {q : ℚ} (hq : 0 < q) : (2 : ℚ) ^ Int.log 2 q ≤ q := by
  simpa using Int.zpow_log_le_self (b := 2) (by norm_num) hq

theorem lt_log2_succ (q : ℚ) : q < (2 : ℚ) ^ (Int.log 2 q + 1) := by
  simpa using Int.lt_zpow_succ_log_self (b := 2) (by norm_num) q

theorem ulpExp_mono {q1 q2 : ℚ} (h0 : 0 < q1) (h : q1 ≤ q2) : ulpExp q1 ≤ ulpExp q2 := by
  have := Int.log_mono_right (b := 2) h0 h
  unfold ulpExp
  omega

theorem lt_ulpExp_top (q : ℚ) : q < (2 : ℚ) ^ (ulpExp q + 53) := by
  have h := lt_log2_succ q
  have hle : Int.log 2 q + 1 ≤ ulpExp q + 53 := by
    unfold ulpExp
    omega
  exact lt_of_lt_of_le h (two_zpow_mono hle)

theorem roundMag_nonneg {q : ℚ} (hq : 0 ≤ q) : 0 ≤ roundMag q := by
  unfold roundMag
  apply mul_nonneg
  · have h : (0 : ℚ) ≤ q / 2 ^ ulpExp q := div_nonneg hq (le_of_lt (two_zpow_pos _))
    have := roundHalfEven_ge_of_int_le (x := q / 2 ^ ulpExp q) (n := 0) (by simpa using h)
    exact_mod_cast this
  · exact le_of_lt (two_zpow_pos _)

theorem roundMag_le_top (q : ℚ) : roundMag q ≤ (2 : ℚ) ^ (ulpExp q + 53) := by
  unfold roundMag
  have hpos := two_zpow_pos (ulpExp q)
  have h1 : q / 2 ^ ulpExp q ≤ ((2 ^ 53 : ℤ) : ℚ) := by
    rw [div_le_iff₀ hpos]
    have := lt_ulpExp_top q
    rw [two_zpow_add, mul_comm] at this
    push_cast
    have e : (2 : ℚ) ^ (53 : ℤ) = 2 ^ 53 := by norm_num
    rw [e] at this
    exact le_of_lt this
  have h2 := roundHalfEven_le_of_le_int h1
  have h3 : (roundHalfEven (q / 2 ^ ulpExp q) : ℚ) ≤ ((2 ^ 53 : ℤ) : ℚ) := by exact_mod_cast h2
  rw [two_zpow_add, mul_comm ((2 : ℚ) ^ ulpExp q)]
  have e : (2 : ℚ) ^ (53 : ℤ) = ((2 ^ 53 : ℤ) : ℚ) := by norm_num
  rw [e]
  exact mul_le_mul_of_nonneg_right h3 (le_of_lt hpos)

theorem roundMag_ge_bottom {q : ℚ} (hq : 0 < q) (hk : -1022 ≤ Int.log 2 q) :
    (2 : ℚ) ^ (ulpExp q + 52) ≤ roundMag q := by
  have he : ulpExp q + 52 = Int.log 2 q := by
    unfold ulpExp
    omega
  unfold roundMag
  have hpos := two_zpow_pos (ulpExp q)
  have hq2 : (2 : ℚ) ^ (ulpExp q + 52) ≤ q := by
    rw [he]; exact log2_le_self hq
  have h1 : ((2 ^ 52 : ℤ) : ℚ) ≤ q / 2 ^ ulpExp q := by
    rw [le_div_iff₀ hpos]
    rw [two_zpow_add, mul_comm] at hq2
    push_cast
    have e : (2 : ℚ) ^ (52 : ℤ) = 2 ^ 52 := by norm_num
    rw [e] at hq2
    exact hq2
  have h2 := roundHalfEven_ge_of_int_le h1
  have h3 : ((2 ^ 52 : ℤ) : ℚ) ≤ (roundHalfEven (q / 2 ^ ulpExp q) : ℚ) := by exact_mod_cast h2
  rw [two_zpow_add, mul_comm ((2 : ℚ) ^ ulpExp q)]
  have e : (2 : ℚ) ^ (52 : ℤ) = ((2 ^ 52 : ℤ) : ℚ) := by norm_num
  rw [e]
  exact mul_le_mul_of_nonneg_right h3 (le_of_lt hpos)

/-- Rounding to the binary64 grid is monotone on the positive rationals. -/
theorem roundMag_mono {q1 q2 : ℚ} (h0 : 0 < q1) (h : q1 ≤ q2) : roundMag q1 ≤ roundMag q2 := by
  have he := ulpExp_mono h0 h
  rcases lt_or_eq_of_le he with hlt | heq
  · have hk : -1022 ≤ Int.log 2 q2 := by
      unfold ulpExp at hlt
      omega
    calc roundMag q1 ≤ (2 : ℚ) ^ (ulpExp q1 + 53) := roundMag_le_top q1
      _ ≤ (2 : ℚ) ^ (ulpExp q2 + 52) := two_zpow_mono (by omega)
      _ ≤ roundMag q2 := roundMag_ge_bottom (lt_of_lt_of_le h0 h) hk
  · unfold roundMag
    rw [heq]
    have hpos := two_zpow_pos (ulpExp q2)
    have h1 : q1 / 2 ^ ulpExp q2 ≤ q2 / 2 ^ ulpExp q2 :=
      div_le_div_of_nonneg_right h (le_of_lt hpos)
    have h2 := roundHalfEven_mono h1
    have h3 : (roundHalfEven (q1 / 2 ^ ulpExp q2) : ℚ) ≤ roundHalfEven (q2 / 2 ^ ulpExp q2) := by
      exact_mod_cast h2
    exact mul_le_mul_of_nonneg_right h3 (le_of_lt hpos)

/-- Evaluation of `roundMag`: a bracket of `q` by powers of 2 fixes the grid, and
a bracket by half-way points fixes the grid point. -/
theorem roundMag_eval {q : ℚ} (k e m : ℤ) (hq : 0 < q)
    (h1 : (2 : ℚ) ^ k ≤ q) (h2 : q < 2 ^ (k + 1)) (he : e = max k (-1022) - 52)
    (hm1 : ((m : ℚ) - 1 / 2) * 2 ^ e < q) (hm2 : q < ((m : ℚ) + 1 / 2) * 2 ^ e) :
    roundMag q = (m : ℚ) * 2 ^ e := by
  have hu : ulpExp q = e := by
    unfold ulpExp
    rw [log2_eq hq h1 h2, he]
  unfold roundMag
  rw [hu]
  have hpos := two_zpow_pos e
  have hr : roundHalfEven (q / 2 ^ e) = m := by
    apply roundHalfEven_eq_of_near
    · rw [lt_div_iff₀ hpos]; exact hm1
    · rw [div_lt_iff₀ hpos]; exact hm2
  rw [hr]

/-- A point of its own grid is not moved by rounding. -/
theorem roundMag_grid {q : ℚ} (k e m : ℤ) (hq : 0 < q)
    (h1 : (2 : ℚ) ^ k ≤ q) (h2 : q < 2 ^ (k + 1)) (he : e = max k (-1022) - 52)
    (hm : q = (m : ℚ) * 2 ^ e) : roundMag q = q := by
  have hpos := two_zpow_pos e
  rw [roundMag_eval k e m hq h1 h2 he, hm]
  · rw [hm]; nlinarith
  · rw [hm]; nlinarith

theorem roundMag_one : roundMag 1 = 1 :=
  roundMag_grid 0 (-52) (2 ^ 52) (by norm_num) (by norm_num) (by norm_num) (by norm_num)
    (by norm_num)

theorem roundMag_half : roundMag (1 / 2) = 1 / 2 :=
  roundMag_grid (-1) (-53) (2 ^ 52) (by norm_num) (by norm_num) (by norm_num) (by norm_num)
    (by norm_num)

theorem roundMag_three : roundMag 3 = 3 :=
  roundMag_grid 1 (-51) (3 * 2 ^ 51) (by norm_num) (by norm_num) (by norm_num) (by norm_num)
    (by norm_num)

theorem roundMag_five_halves : roundMag (5 / 2) = 5 / 2 :=
  roundMag_grid 1 (-51) (5 * 2 ^ 50) (by norm_num) (by norm_num) (by norm_num) (by norm_num)
    (by norm_num)

theorem roundMag_hundred : roundMag 100 = 100 :=
  roundMag_grid 6 (-46) (25 * 2 ^ 48) (by norm_num) (by norm_num) (by norm_num) (by norm_num)
    (by norm_num)

/-- A positive exact result below a binary64 number `hi` rounds to a finite
value that is still at most `hi`. -/
theorem round_pos_le {q hi : ℚ} (hq : 0 < q) (hle : q ≤ hi) (hfix : roundMag hi = hi)
    (hhi : hi < 2 ^ (1024 : ℕ)) :
    F64.round q = .fin (roundMag q) ∧ 0 ≤ roundMag q ∧ roundMag q ≤ hi := by
  have h1 : roundMag q ≤ hi := by
    have := roundMag_mono hq hle
    rwa [hfix] at this
  have h2 : ¬ ((2 : ℚ) ^ (1024 : ℕ) ≤ roundMag q) := by
    intro h
    linarith
  refine ⟨?_, roundMag_nonneg (le_of_lt hq), h1⟩
  unfold F64.round
  rw [if_neg (ne_of_gt hq), if_pos hq, if_neg h2]

/-- A positive exact result at least a binary64 number `lo` rounds to `+∞` or to
a finite value that is still at least `lo`. -/
theorem round_pos_ge {q lo : ℚ} (hlo : 0 < lo) (hle : lo ≤ q) (hfix : roundMag lo = lo) :
    F64.round q = .posInf ∨ (F64.round q = .fin (roundMag q) ∧ lo ≤ roundMag q) := by
  have hq : 0 < q := lt_of_lt_of_le hlo hle
  have h1 : lo ≤ roundMag q := by
    have := roundMag_mono hlo hle
    rwa [hfix] at this
  unfold F64.round
  rw [if_neg (ne_of_gt hq), if_pos hq]
  by_cases h : (2 : ℚ) ^ (1024 : ℕ) ≤ roundMag q
  · left; rw [if_pos h]
  · right; rw [if_neg h]; exact ⟨rfl, h1⟩

/-- An exact result at most a positive binary64 number `c` rounds to a value at
most `c`. -/
theorem round_atMost {q c : ℚ} (hc : 0 < c) (hle : q ≤ c) (hfix : roundMag c = c)
    (hhi : c < 2 ^ (1024 : ℕ)) : F64.atMost (F64.round q) c := by
  rcases lt_trichotomy q 0 with hneg | hzero | hpos
  · have hq : ¬ (0 < q) := not_lt.2 (le_of_lt hneg)
    have hnn := roundMag_nonneg (q := -q) (by linarith)
    unfold F64.round
    rw [if_neg (ne_of_lt hneg), if_neg hq]
    split_ifs
    · left; rfl
    · right; exact ⟨rfl, by simpa [F64.toRat] using le_of_lt hc⟩
    · right
      refine ⟨rfl, ?_⟩
      simp only [F64.toRat]
      linarith
  · right
    subst hzero
    simp [F64.round, F64.isFinite, F64.toRat, le_of_lt hc]
  · right
    have h := round_pos_le hpos hle hfix hhi
    rw [h.1]
    exact ⟨rfl, h.2.2⟩

theorem two_pow_1024_gt (c : ℚ) (h : c ≤ 100) : c < 2 ^ (1024 : ℕ) := by
  have : (100 : ℚ) < 2 ^ (1024 : ℕ) := by norm_num
  linarith

theorem round_fix {q : ℚ} (hq : 0 < q) (hfix : roundMag q = q) (hlt : q < 2 ^ (1024 : ℕ)) :
    F64.round q = .fin q := by
  have h := (round_pos_le hq (le_refl q) hfix hlt).1
  rw [h, hfix]

theorem F64.div_fin_fin (a b : ℚ) (ha : a ≠ 0) (hb : b ≠ 0) :
    F64.div (.fin a) (.fin b) = F64.round (a / b) := by
  simp [F64.div, F64.isFinite, F64.isZero, ha, hb, F64.toRat]

theorem F64.mul_fin_fin (a b : ℚ) (ha : a ≠ 0) (hb : b ≠ 0) :
    F64.mul (.fin a) (.fin b) = F64.round (a * b) := by
  simp [F64.mul, F64.isFinite, F64.isZero, ha, hb, F64.toRat]

theorem F64.mul_zero_fin (b : ℚ) (hb : 0 < b) : F64.mul (.fin 0) (.fin b) = .fin 0 := by
  have h : ¬ (b < 0) := not_lt.2 (le_of_lt hb)
  simp [F64.mul, F64.isFinite, F64.isZero, F64.zero, F64.signBit, h]

theorem F64.sub_fin_fin (a b : ℚ) (hne : a ≠ 0 ∨ b ≠ 0) :
    F64.sub (.fin a) (.fin b) = F64.round (a - b) := by
  by_cases hb : b = 0
  · subst hb
    have ha : a ≠ 0 := by
      rcases hne with h | h
      · exact h
      · exact absurd rfl h
    simp [F64.sub, F64.neg, F64.add, F64.isZero, ha, F64.toRat]
  · simp [F64.sub, F64.neg, F64.add, F64.isZero, hb, F64.toRat, sub_eq_add_neg]

theorem F64.max_fin_fin (a b : ℚ) (h : a ≤ b) : F64.max (.fin a) (.fin b) = .fin b := by
  rcases lt_or_eq_of_le h with hlt | heq
  · simp [F64.max, F64.lt, F64.toRat, hlt]
  · subst heq
    by_cases h0 : a = 0
    · subst h0
      simp [F64.max, F64.lt, F64.toRat, F64.isZero, F64.zero, F64.signBit]
    · simp [F64.max, F64.lt, F64.toRat, F64.isZero, h0]

theorem F64.sub_max_min : F64.sub (.fin 3) (.fin (1 / 2)) = .fin (5 / 2) := by
  rw [F64.sub_fin_fin 3 (1 / 2) (Or.inl (by norm_num))]
  have e : (3 : ℚ) - 1 / 2 = 5 / 2 := by norm_num
  rw [e]
  exact round_fix (by norm_num) roundMag_five_halves (by norm_num)

/-- For a fan value in `(0, 100]` every intermediate result is finite, and the
duration is `durationMag`, between 0.5 and 3. -/
theorem durationSeconds_small (q : ℚ) (h0 : 0 < q) (h100 : q ≤ 100) :
    durationSeconds (.fin q) = .fin (durationMag q) ∧
    1 / 2 ≤ durationMag q ∧ durationMag q ≤ 3 := by
  -- val / 100
  have hq1 : (0 : ℚ) < q / 100 := by positivity
  have hq2 : q / 100 ≤ 1 := by
    rw [div_le_one (by norm_num)]; exact h100
  have hr1 := round_pos_le hq1 hq2 roundMag_one (by norm_num)
  -- (val / 100) * 2.5
  have hx2 : F64.mul (F64.round (q / 100)) (.fin (5 / 2))
        = .fin (if roundMag (q / 100) = 0 then 0 else roundMag (roundMag (q / 100) * (5 / 2))) ∧
      (0 : ℚ) ≤ (if roundMag (q / 100) = 0 then 0 else roundMag (roundMag (q / 100) * (5 / 2))) ∧
      (if roundMag (q / 100) = 0 then 0 else roundMag (roundMag (q / 100) * (5 / 2))) ≤ 5 / 2 := by
    rw [hr1.1]
    by_cases hz : roundMag (q / 100) = 0
    · rw [hz, if_pos rfl]
      exact ⟨F64.mul_zero_fin _ (by norm_num), le_refl _, by norm_num⟩
    · rw [if_neg hz]
      have hp : 0 < roundMag (q / 100) := lt_of_le_of_ne hr1.2.1 (Ne.symm hz)
      have hp2 : 0 < roundMag (q / 100) * (5 / 2) := by positivity
      have hle : roundMag (q / 100) * (5 / 2) ≤ 5 / 2 := by linarith [hr1.2.2]
      have h := round_pos_le hp2 hle roundMag_five_halves (by norm_num)
      rw [F64.mul_fin_fin _ _ hz (by norm_num)]
      exact h
  -- 3 - ...
  have hx3 : ∀ r2 : ℚ, 0 ≤ r2 → r2 ≤ 5 / 2 →
      F64.sub (.fin 3) (.fin r2) = .fin (roundMag (3 - r2)) ∧
      1 / 2 ≤ roundMag (3 - r2) ∧ roundMag (3 - r2) ≤ 3 := by
    intro r2 h1 h2
    have hs : (0 : ℚ) < 3 - r2 := by linarith
    have hs2 : 3 - r2 ≤ 3 := by linarith
    have h := round_pos_le hs hs2 roundMag_three (by norm_num)
    have hlow : roundMag (1 / 2) ≤ roundMag (3 - r2) :=
      roundMag_mono (by norm_num) (by linarith)
    rw [roundMag_half] at hlow
    rw [F64.sub_fin_fin 3 r2 (Or.inl (by norm_num))]
    exact ⟨h.1, hlow, h.2.2⟩
  have h3 := hx3 _ hx2.2.1 hx2.2.2
  have hlt : F64.lt (.fin 0) (.fin q) = true := by
    simp [F64.lt, F64.toRat, h0]
  refine ⟨?_, h3.2.1, h3.2.2⟩
  unfold durationSeconds
  simp only [hlt, if_true]
  rw [F64.sub_max_min, F64.div_fin_fin q 100 (ne_of_gt h0) (by norm_num), hx2.1, h3.1]
  exact F64.max_fin_fin _ _ h3.2.1

/-- On `(0, 100]` the duration does not increase with the fan value. -/
theorem durationMag_antitone {q1 q2 : ℚ} (h0 : 0 < q1) (h12 : q1 ≤ q2) (h100 : q2 ≤ 100) :
    durationMag q2 ≤ durationMag q1 := by
  have hq1 : (0 : ℚ) < q1 / 100 := by positivity
  have hq12 : q1 / 100 ≤ q2 / 100 := div_le_div_of_nonneg_right h12 (by norm_num)
  have hq2 : q2 / 100 ≤ 1 := by
    rw [div_le_one (by norm_num)]; exact h100
  have hm1 : roundMag (q1 / 100) ≤ roundMag (q2 / 100) := roundMag_mono hq1 hq12
  have hn1 : 0 ≤ roundMag (q1 / 100) := roundMag_nonneg (le_of_lt hq1)
  have hb2 := round_pos_le (lt_of_lt_of_le hq1 hq12) hq2 roundMag_one (by norm_num)
  -- the products
  have hprod : (if roundMag (q1 / 100) = 0 then 0 else roundMag (roundMag (q1 / 100) * (5 / 2)))
      ≤ (if roundMag (q2 / 100) = 0 then 0 else roundMag (roundMag (q2 / 100) * (5 / 2))) := by
    by_cases hz1 : roundMag (q1 / 100) = 0
    · rw [if_pos hz1]
      split_ifs
      · exact le_refl _
      · exact roundMag_nonneg (mul_nonneg hb2.2.1 (by norm_num))
    · have hp1 : 0 < roundMag (q1 / 100) := lt_of_le_of_ne hn1 (Ne.symm hz1)
      have hz2 : roundMag (q2 / 100) ≠ 0 := ne_of_gt (lt_of_lt_of_le hp1 hm1)
      rw [if_neg hz1, if_neg hz2]
      exact roundMag_mono (by positivity) (by linarith)
  have hup : (if roundMag (q2 / 100) = 0 then 0 else roundMag (roundMag (q2 / 100) * (5 / 2)))
      ≤ 5 / 2 := by
    split_ifs with hz
    · norm_num
    · have hp : 0 < roundMag (q2 / 100) := lt_of_le_of_ne hb2.2.1 (Ne.symm hz)
      have h := round_pos_le (q := roundMag (q2 / 100) * (5 / 2)) (by positivity)
        (by linarith [hb2.2.2]) roundMag_five_halves (by norm_num)
      exact h.2.2
  unfold durationMag
  exact roundMag_mono (by linarith) (by linarith)

theorem F64.mul_posInf_fin (b : ℚ) (hb : 0 < b) : F64.mul .posInf (.fin b) = .posInf := by
  have h1 : ¬ (b < 0) := not_lt.2 (le_of_lt hb)
  have h2 : b ≠ 0 := ne_of_gt hb
  simp [F64.mul, F64.isFinite, F64.isZero, F64.inf, F64.signBit, h1, h2]

theorem F64.div_posInf_fin (b : ℚ) (hb : 0 < b) : F64.div .posInf (.fin b) = .posInf := by
  have h1 : ¬ (b < 0) := not_lt.2 (le_of_lt hb)
  simp [F64.div, F64.isFinite, F64.inf, F64.signBit, h1]

theorem F64.max_half_atMost (x : F64) (h : F64.atMost x (1 / 2)) :
    F64.max (.fin (1 / 2)) x = .fin (1 / 2) := by
  rcases h with h | ⟨hf, hle⟩
  · subst h
    simp [F64.max, F64.lt]
  · cases x with
    | nan => simp [F64.isFinite] at hf
    | posInf => simp [F64.isFinite] at hf
    | negInf => simp [F64.isFinite] at hf
    | negZero => simp [F64.max, F64.lt, F64.toRat]
    | fin r =>
      simp only [F64.toRat] at hle
      rcases lt_or_eq_of_le hle with hlt | heq
      · have h2 : ¬ ((1 : ℚ) / 2 < r) := not_lt.2 hle
        simp only [one_div] at h2 hlt
        simp [F64.max, F64.lt, F64.toRat, hlt, h2]
      · subst heq
        simp [F64.max, F64.lt, F64.toRat, F64.isZero]

/-- Once `(val / 100) * 2.5` is `+∞` or at least 2.5, the duration is 0.5. -/
theorem duration_tail (x2 : F64)
    (h : x2 = .posInf ∨ ∃ r2 : ℚ, x2 = .fin r2 ∧ 5 / 2 ≤ r2) :
    F64.max (.fin (1 / 2)) (F64.sub (.fin 3) x2) = .fin (1 / 2) := by
  apply F64.max_half_atMost
  rcases h with h | ⟨r2, h, hr⟩
  · subst h
    left
    simp [F64.sub, F64.neg, F64.add]
  · subst h
    rw [F64.sub_fin_fin 3 r2 (Or.inl (by norm_num))]
    exact round_atMost (by norm_num) (by linarith) roundMag_half (by norm_num)

/-- Above 100 the duration is 0.5. -/
theorem durationSeconds_large (q : ℚ) (h100 : 100 < q) :
    durationSeconds (.fin q) = .fin (1 / 2) := by
  have h0 : 0 < q := by linarith
  have hlt : F64.lt (.fin 0) (.fin q) = true := by
    simp [F64.lt, F64.toRat, h0]
  have hq1 : (1 : ℚ) ≤ q / 100 := by
    rw [le_div_iff₀ (by norm_num)]; linarith
  unfold durationSeconds
  simp only [hlt, if_true]
  rw [F64.sub_max_min, F64.div_fin_fin q 100 (ne_of_gt h0) (by norm_num)]
  apply duration_tail
  rcases round_pos_ge (by norm_num) hq1 roundMag_one with h | ⟨h, hr⟩
  · left
    rw [h]
    exact F64.mul_posInf_fin _ (by norm_num)
  · rw [h]
    have hne : roundMag (q / 100) ≠ 0 := by linarith
    rw [F64.mul_fin_fin _ _ hne (by norm_num)]
    have hge : (5 : ℚ) / 2 ≤ roundMag (q / 100) * (5 / 2) := by linarith
    rcases round_pos_ge (by norm_num) hge roundMag_five_halves with h2 | ⟨h2, hr2⟩
    · left; exact h2
    · right; exact ⟨_, h2, hr2⟩

theorem durationSeconds_posInf : durationSeconds .posInf = .fin (1 / 2) := by
  have hlt : F64.lt (.fin 0) .posInf = true := by simp [F64.lt]
  unfold durationSeconds
  simp only [hlt, if_true]
  rw [F64.sub_max_min]
  apply duration_tail
  left
  rw [F64.div_posInf_fin _ (by norm_num)]
  exact F64.mul_posInf_fin _ (by norm_num)

theorem durationMag_hundred : durationMag 100 = 1 / 2 := by
  unfold durationMag
  have e1 : (100 : ℚ) / 100 = 1 := by norm_num
  have e2 : (1 : ℚ) * (5 / 2) = 5 / 2 := by norm_num
  have e3 : (3 : ℚ) - 5 / 2 = 1 / 2 := by norm_num
  rw [e1, roundMag_one, if_neg (by norm_num), e2, roundMag_five_halves, e3, roundMag_half]

/-- At the fan value `2^-70` the three roundings give exactly 3. -/
theorem durationMag_tiny : durationMag (1 / 2 ^ 70) = 3 := by
  have r1 : roundMag (1 / 2 ^ 70 / 100) = (5764607523034235 : ℤ) * 2 ^ (-129 : ℤ) :=
    roundMag_eval (-77) (-129) 5764607523034235 (by norm_num) (by norm_num) (by norm_num)
      (by norm_num) (by norm_num) (by norm_num)
  have r2 : roundMag ((5764607523034235 : ℤ) * 2 ^ (-129 : ℤ) * (5 / 2))
      = (7205759403792794 : ℤ) * 2 ^ (-128 : ℤ) :=
    roundMag_eval (-76) (-128) 7205759403792794 (by norm_num) (by norm_num) (by norm_num)
      (by norm_num) (by norm_num) (by norm_num)
  have r3 : roundMag (3 - (7205759403792794 : ℤ) * 2 ^ (-128 : ℤ))
      = (6755399441055744 : ℤ) * 2 ^ (-51 : ℤ) :=
    roundMag_eval 1 (-51) 6755399441055744 (by norm_num) (by norm_num) (by norm_num)
      (by norm_num) (by norm_num) (by norm_num)
  unfold durationMag
  rw [r1, if_neg (by norm_num), r2, r3]
  norm_num

/-- At the fan value `2^-71` the three roundings give exactly 3 as well. -/
theorem durationMag_tinier : durationMag (1 / 2 ^ 71) = 3 := by
  have r1 : roundMag (1 / 2 ^ 71 / 100) = (5764607523034235 : ℤ) * 2 ^ (-130 : ℤ) :=
    roundMag_eval (-78) (-130) 5764607523034235 (by norm_num) (by norm_num) (by norm_num)
      (by norm_num) (by norm_num) (by norm_num)
  have r2 : roundMag ((5764607523034235 : ℤ) * 2 ^ (-130 : ℤ) * (5 / 2))
      = (7205759403792794 : ℤ) * 2 ^ (-129 : ℤ) :=
    roundMag_eval (-77) (-129) 7205759403792794 (by norm_num) (by norm_num) (by norm_num)
      (by norm_num) (by norm_num) (by norm_num)
  have r3 : roundMag (3 - (7205759403792794 : ℤ) * 2 ^ (-129 : ℤ))
      = (6755399441055744 : ℤ) * 2 ^ (-51 : ℤ) :=
    roundMag_eval 1 (-51) 6755399441055744 (by norm_num) (by norm_num) (by norm_num)
      (by norm_num) (by norm_num) (by norm_num)
  unfold durationMag
  rw [r1, if_neg (by norm_num), r2, r3]
  norm_num

/-- At the fan value 46 the three roundings give 1.8499999999999999, the
binary64 number just below 1.85. -/
theorem durationMag_46 : durationMag 46 = (8331659310635417 : ℤ) * 2 ^ (-52 : ℤ) := by
  have r1 : roundMag (46 / 100) = (8286623314361713 : ℤ) * 2 ^ (-54 : ℤ) :=
    roundMag_eval (-2) (-54) 8286623314361713 (by norm_num) (by norm_num) (by norm_num)
      (by norm_num) (by norm_num) (by norm_num)
  have r2 : roundMag ((8286623314361713 : ℤ) * 2 ^ (-54 : ℤ) * (5 / 2))
      = (5179139571476071 : ℤ) * 2 ^ (-52 : ℤ) :=
    roundMag_eval 0 (-52) 5179139571476071 (by norm_num) (by norm_num) (by norm_num)
      (by norm_num) (by norm_num) (by norm_num)
  have r3 : roundMag (3 - (5179139571476071 : ℤ) * 2 ^ (-52 : ℤ))
      = (8331659310635417 : ℤ) * 2 ^ (-52 : ℤ) :=
    roundMag_eval 0 (-52) 8331659310635417 (by norm_num) (by norm_num) (by norm_num)
      (by norm_num) (by norm_num) (by norm_num)
  unfold durationMag
  rw [r1, if_neg (by norm_num), r2, r3]

theorem ulpExp_ge (q : ℚ) : -1074 ≤ ulpExp q := by
  unfold ulpExp
  omega

theorem roundMag_onGrid (q : ℚ) : ∃ n : ℤ, roundMag q = (n : ℚ) * 2 ^ (-1074 : ℤ) := by
  obtain ⟨j, hj⟩ : ∃ j : ℕ, ulpExp q = (j : ℤ) + (-1074) := by
    refine ⟨(ulpExp q + 1074).toNat, ?_⟩
    have := ulpExp_ge q
    omega
  refine ⟨roundHalfEven (q / 2 ^ ulpExp q) * 2 ^ j, ?_⟩
  unfold roundMag
  rw [hj, two_zpow_add, zpow_natCast]
  push_cast
  ring

theorem round_onGrid (q : ℚ) : F64.onGrid (F64.round q) := by
  unfold F64.round
  split_ifs
  · exact ⟨0, by simp [F64.toRat]⟩
  · exact ⟨0, by simp [F64.toRat]⟩
  · exact roundMag_onGrid q
  · exact ⟨0, by simp [F64.toRat]⟩
  · exact ⟨0, by simp [F64.toRat]⟩
  · obtain ⟨n, hn⟩ := roundMag_onGrid (-q)
    exact ⟨-n, by simp [F64.toRat, hn]⟩

theorem roundMag_min_subnormal : roundMag (2 ^ (-1074 : ℤ)) = 2 ^ (-1074 : ℤ) := by
  have hpos := two_zpow_pos (-1074)
  apply roundMag_grid (-1074) (-1074) 1 hpos (le_refl _)
  · exact zpow_lt_zpow_right₀ (by norm_num) (by norm_num)
  · norm_num
  · simp

/-- The difference of two grid values, when positive, does not round to zero. -/
theorem roundMag_grid_diff_pos {lo hi : ℚ} (hlo : ∃ n : ℤ, lo = (n : ℚ) * 2 ^ (-1074 : ℤ))
    (hhi : ∃ n : ℤ, hi = (n : ℚ) * 2 ^ (-1074 : ℤ)) (hlt : lo < hi) :
    0 < roundMag (hi - lo) := by
  obtain ⟨a, ha⟩ := hlo
  obtain ⟨b, hb⟩ := hhi
  have hpos := two_zpow_pos (-1074)
  have hab : a < b := by
    by_contra hcon
    have hle : (b : ℚ) ≤ a := by exact_mod_cast not_lt.1 hcon
    have : hi ≤ lo := by
      rw [ha, hb]
      exact mul_le_mul_of_nonneg_right hle (le_of_lt hpos)
    linarith
  have h1 : (1 : ℚ) ≤ (b : ℚ) - a := by
    have : a + 1 ≤ b := hab
    have h2 : ((a + 1 : ℤ) : ℚ) ≤ b := by exact_mod_cast this
    push_cast at h2
    linarith
  have hge : (2 : ℚ) ^ (-1074 : ℤ) ≤ hi - lo := by
    rw [ha, hb]
    have : ((b : ℚ) - a) * 2 ^ (-1074 : ℤ) = (b : ℚ) * 2 ^ (-1074 : ℤ) - a * 2 ^ (-1074 : ℤ) := by
      ring
    rw [← this]
    nlinarith
  have := roundMag_mono hpos hge
  rw [roundMag_min_subnormal] at this
  linarith

theorem F64.finite_cases {x : F64} (h : x.isFinite = true) :
    x = .negZero ∨ ∃ q, x = .fin q := by
  cases x with
  | nan => simp [F64.isFinite] at h
  | posInf => simp [F64.isFinite] at h
  | negInf => simp [F64.isFinite] at h
  | negZero => exact Or.inl rfl
  | fin q => exact Or.inr ⟨q, rfl⟩

theorem F64.zero_within (s : Bool) (c : ℚ) (hc : 0 ≤ c) : F64.within (F64.zero s) c := by
  cases s <;> simp [F64.zero, F64.within, F64.isFinite, F64.toRat, hc]

/-- The difference of two finite values that denote the same number is a zero. -/
theorem F64.sub_same {x y : F64} (hx : x.isFinite = true) (hy : y.isFinite = true)
    (h : x.toRat = y.toRat) :
    (F64.sub x y).isFinite = true ∧ (F64.sub x y).isZero = true := by
  rcases F64.finite_cases hx with rfl | ⟨a, rfl⟩ <;>
    rcases F64.finite_cases hy with rfl | ⟨b, rfl⟩
  · simp [F64.sub, F64.neg, F64.add, F64.isZero, F64.signBit, F64.zero, F64.isFinite]
  · simp only [F64.toRat] at h
    subst h
    simp [F64.sub, F64.neg, F64.add, F64.isZero, F64.signBit, F64.zero, F64.isFinite]
  · simp only [F64.toRat] at h
    subst h
    simp [F64.sub, F64.neg, F64.add, F64.isZero, F64.signBit, F64.zero, F64.isFinite]
  · simp only [F64.toRat] at h
    subst h
    by_cases h0 : a = 0
    · subst h0
      simp [F64.sub, F64.neg, F64.add, F64.isZero, F64.signBit, F64.zero, F64.isFinite]
    · simp [F64.sub, F64.neg, F64.add, F64.isZero, h0, F64.toRat, F64.round, F64.isFinite]

/-- The difference of two finite values that denote different numbers is the
rounded exact difference. -/
theorem F64.sub_diff {x y : F64} (hx : x.isFinite = true) (hy : y.isFinite = true)
    (h : x.toRat ≠ y.toRat) : F64.sub x y = F64.round (x.toRat - y.toRat) := by
  rcases F64.finite_cases hx with rfl | ⟨a, rfl⟩ <;>
    rcases F64.finite_cases hy with rfl | ⟨b, rfl⟩
  · exact absurd rfl h
  · simp only [F64.toRat] at h ⊢
    have hb : b ≠ 0 := fun hb => h hb.symm
    simp [F64.sub, F64.neg, F64.add, F64.isZero, hb, F64.toRat]
  · simp only [F64.toRat] at h ⊢
    simp [F64.sub, F64.neg, F64.add, F64.isZero, h, F64.toRat]
  · simp only [F64.toRat] at h ⊢
    apply F64.sub_fin_fin
    by_contra hcon
    push_neg at hcon
    exact h (hcon.1.trans hcon.2.symm)

/-- A zero divided by a zero, then multiplied by 100, is NaN. -/
theorem F64.zero_div_zero_mul {n d : F64} (hn1 : n.isFinite = true) (hn2 : n.isZero = true)
    (hd1 : d.isFinite = true) (hd2 : d.isZero = true) :
    F64.mul (F64.div n d) (.fin 100) = .nan := by
  have h : F64.div n d = .nan := by
    rcases F64.finite_cases hn1 with rfl | ⟨a, rfl⟩ <;>
      rcases F64.finite_cases hd1 with rfl | ⟨b, rfl⟩ <;>
      simp_all [F64.div, F64.isZero, F64.isFinite]
  rw [h]
  rfl

/-- A value in `[0, d]` divided by the positive finite `d` is in `[0, 1]`. -/
theorem F64.within_div {n : F64} {d : ℚ} (hd : 0 < d) (hn : F64.within n d) :
    F64.within (F64.div n (.fin d)) 1 := by
  obtain ⟨hf, h0, hle⟩ := hn
  have hd0 : d ≠ 0 := ne_of_gt hd
  have hdn : ¬ (d < 0) := not_lt.2 (le_of_lt hd)
  rcases F64.finite_cases hf with rfl | ⟨a, rfl⟩
  · have e : F64.div .negZero (.fin d) = F64.zero true := by
      simp [F64.div, F64.isFinite, F64.isZero, hd0, F64.signBit, hdn]
    rw [e]
    exact F64.zero_within _ _ (by norm_num)
  · simp only [F64.toRat] at h0 hle
    by_cases ha : a = 0
    · subst ha
      have e : F64.div (.fin 0) (.fin d) = F64.zero false := by
        simp [F64.div, F64.isFinite, F64.isZero, hd0, F64.signBit, hdn]
      rw [e]
      exact F64.zero_within _ _ (by norm_num)
    · have hap : 0 < a := lt_of_le_of_ne h0 (Ne.symm ha)
      rw [F64.div_fin_fin a d ha hd0]
      have hq : 0 < a / d := div_pos hap hd
      have hq1 : a / d ≤ 1 := by
        rw [div_le_one hd]; exact hle
      have h := round_pos_le hq hq1 roundMag_one (by norm_num)
      rw [h.1]
      exact ⟨rfl, h.2.1, h.2.2⟩

/-- A value in `[0, 1]` multiplied by 100 is in `[0, 100]`. -/
theorem F64.within_mul_hundred {x : F64} (hx : F64.within x 1) :
    F64.within (F64.mul x (.fin 100)) 100 := by
  obtain ⟨hf, h0, hle⟩ := hx
  have h100 : ¬ ((100 : ℚ) < 0) := by norm_num
  rcases F64.finite_cases hf with rfl | ⟨a, rfl⟩
  · have e : F64.mul .negZero (.fin 100) = F64.zero true := by
      simp [F64.mul, F64.isFinite, F64.isZero, F64.signBit, h100]
    rw [e]
    exact F64.zero_within _ _ (by norm_num)
  · simp only [F64.toRat] at h0 hle
    by_cases ha : a = 0
    · subst ha
      rw [F64.mul_zero_fin 100 (by norm_num)]
      exact ⟨rfl, by simp [F64.toRat], by simp [F64.toRat]⟩
    · have hap : 0 < a := lt_of_le_of_ne h0 (Ne.symm ha)
      rw [F64.mul_fin_fin a 100 ha (by norm_num)]
      have h := round_pos_le (q := a * 100) (by positivity) (by linarith)
        roundMag_hundred (by norm_num)
      rw [h.1]
      exact ⟨rfl, h.2.1, h.2.2⟩

/-- The fill percentage `((val - min) / (max - min)) * 100` for finite binary64
bounds `min < max` and `min <= val <= max`, when `max - min` does not overflow,
is a finite number between 0 and 100. -/
theorem pct_within {a b v : F64} (ha : a.isFinite = true) (hb : b.isFinite = true)
    (hv : v.isFinite = true) (ga : F64.onGrid a) (gb : F64.onGrid b)
    (hab : a.toRat < b.toRat) (hav : a.toRat ≤ v.toRat) (hvb : v.toRat ≤ b.toRat)
    (hover : F64.sub b a ≠ .posInf) :
    F64.within (F64.mul (F64.div (F64.sub v a) (F64.sub b a)) (.fin 100)) 100 := by
  have hpos : 0 < b.toRat - a.toRat := by linarith
  have hdpos : 0 < roundMag (b.toRat - a.toRat) := roundMag_grid_diff_pos ga gb hab
  have hD : F64.sub b a = F64.round (b.toRat - a.toRat) := F64.sub_diff hb ha (ne_of_gt hab)
  have hlt : ¬ ((2 : ℚ) ^ (1024 : ℕ) ≤ roundMag (b.toRat - a.toRat)) := by
    intro hge
    apply hover
    rw [hD]
    unfold F64.round
    rw [if_neg (ne_of_gt hpos), if_pos hpos, if_pos hge]
  have hD2 : F64.sub b a = .fin (roundMag (b.toRat - a.toRat)) := by
    rw [hD]
    unfold F64.round
    rw [if_neg (ne_of_gt hpos), if_pos hpos, if_neg hlt]
  have hN : F64.within (F64.sub v a) (roundMag (b.toRat - a.toRat)) := by
    rcases lt_or_eq_of_le hav with hlt2 | heq
    · rw [F64.sub_diff hv ha (ne_of_gt hlt2)]
      have hq : 0 < v.toRat - a.toRat := by linarith
      have hm : roundMag (v.toRat - a.toRat) ≤ roundMag (b.toRat - a.toRat) :=
        roundMag_mono hq (by linarith)
      have hn : ¬ ((2 : ℚ) ^ (1024 : ℕ) ≤ roundMag (v.toRat - a.toRat)) := by
        intro h; apply hlt; linarith
      unfold F64.round
      rw [if_neg (ne_of_gt hq), if_pos hq, if_neg hn]
      exact ⟨rfl, roundMag_nonneg (le_of_lt hq), hm⟩
    · have hz := F64.sub_same hv ha heq.symm
      refine ⟨hz.1, ?_, ?_⟩
      · rcases F64.finite_cases hz.1 with h | ⟨q, h⟩
        · rw [h]; simp [F64.toRat]
        · rw [h] at hz ⊢
          simp [F64.isZero] at hz
          simp [F64.toRat, hz]
      · rcases F64.finite_cases hz.1 with h | ⟨q, h⟩
        · rw [h]; simpa [F64.toRat] using le_of_lt hdpos
        · rw [h] at hz ⊢
          simp [F64.isZero] at hz
          simpa [F64.toRat, hz] using le_of_lt hdpos
  rw [hD2]
  exact F64.within_mul_hundred (F64.within_div hdpos hN)

/-- The fill percentage is NaN when `min`, `max` and `val` are finite and denote
the same number. -/
theorem pct_nan {a b v : F64} (ha : a.isFinite = true) (hb : b.isFinite = true)
    (hv : v.isFinite = true) (hba : b.toRat = a.toRat) (hva : v.toRat = a.toRat) :
    F64.mul (F64.div (F64.sub v a) (F64.sub b a)) (.fin 100) = .nan := by
  have h1 := F64.sub_same hv ha hva
  have h2 := F64.sub_same hb ha hba
  exact F64.zero_div_zero_mul h1.1 h1.2 h2.1 h2.2

/-! ## Fan animation duration and slider fill -/

theorem ofSigned_onGrid (negative : Bool) (m : JSNum) : F64.onGrid (F64.ofSigned negative m) := by
  cases m with
  | nan => exact ⟨0, by simp [F64.ofSigned, F64.toRat]⟩
  | posInf => exact ⟨0, by cases negative <;> simp [F64.ofSigned, F64.inf, F64.toRat]⟩
  | negInf => exact ⟨0, by cases negative <;> simp [F64.ofSigned, F64.inf, F64.toRat]⟩
  | fin q =>
    by_cases hq : q = 0
    · exact ⟨0, by cases negative <;> simp [F64.ofSigned, hq, F64.zero, F64.toRat]⟩
    · have e : F64.ofSigned negative (.fin q) = F64.round (if negative then -q else q) := by
        simp [F64.ofSigned, hq]
      rw [e]
      exact round_onGrid _

/-- Every number read from a string is on the binary64 grid. -/
theorem stringToF64_onGrid (s : String) : F64.onGrid (stringToF64 s) :=
  ofSigned_onGrid _ _

theorem roundMag_five : roundMag 5 = 5 :=
  roundMag_grid 2 (-50) (5 * 2 ^ 50) (by norm_num) (by norm_num) (by norm_num) (by norm_num)
    (by norm_num)

theorem roundMag_seven : roundMag 7 = 7 :=
  roundMag_grid 2 (-50) (7 * 2 ^ 50) (by norm_num) (by norm_num) (by norm_num) (by norm_num)
    (by norm_num)

theorem stringToF64_five : stringToF64 "5" = .fin 5 := by
  have h : parseSigned "5" = (false, .fin 5) := by decide
  unfold stringToF64
  rw [h]
  have h5 : ¬ ((5 : ℚ) = 0) := by norm_num
  simp only [F64.ofSigned, h5, if_false, Bool.false_eq_true]
  exact round_fix (by norm_num) roundMag_five (by norm_num)

theorem stringToF64_seven : stringToF64 "7" = .fin 7 := by
  have h : parseSigned "7" = (false, .fin 7) := by decide
  unfold stringToF64
  rw [h]
  have h7 : ¬ ((7 : ℚ) = 0) := by norm_num
  simp only [F64.ofSigned, h7, if_false, Bool.false_eq_true]
  exact round_fix (by norm_num) roundMag_seven (by norm_num)

theorem stringToF64_hundred : stringToF64 "100" = .fin 100 := by
  have h : parseSigned "100" = (false, .fin 100) := by decide
  unfold stringToF64
  rw [h]
  have h100 : ¬ ((100 : ℚ) = 0) := by norm_num
  simp only [F64.ofSigned, h100, if_false, Bool.false_eq_true]
  exact round_fix (by norm_num) roundMag_hundred (by norm_num)

theorem stringToF64_one : stringToF64 "1" = .fin 1 := by
  have h : parseSigned "1" = (false, .fin 1) := by decide
  unfold stringToF64
  rw [h]
  have h1 : ¬ ((1 : ℚ) = 0) := by norm_num
  simp only [F64.ofSigned, h1, if_false, Bool.false_eq_true]
  exact round_fix (by norm_num) roundMag_one (by norm_num)

theorem stringToF64_zero : stringToF64 "0" = .fin 0 := by
  have h : parseSigned "0" = (false, .fin 0) := by decide
  unfold stringToF64
  rw [h]
  simp [F64.ofSigned, F64.zero]

theorem stringToF64_negZero : stringToF64 "-0" = .negZero := by
  have h : parseSigned "-0" = (true, .fin 0) := by decide
  unfold stringToF64
  rw [h]
  simp [F64.ofSigned, F64.zero]

/-- The fan slider at 7: the code computes `(7 / 100) * 100` in binary64, which
is 7.000000000000001, the number `7 + 2^-50`. -/
theorem sliderPct_seven :
    sliderPct sevenSlider = .fin ((7881299347898369 : ℤ) * 2 ^ (-50 : ℤ)) := by
  have r1 : roundMag (7 / 100) = (5044031582654956 : ℤ) * 2 ^ (-56 : ℤ) :=
    roundMag_eval (-4) (-56) 5044031582654956 (by norm_num) (by norm_num) (by norm_num)
      (by norm_num) (by norm_num) (by norm_num)
  have r2 : roundMag ((5044031582654956 : ℤ) * 2 ^ (-56 : ℤ) * 100)
      = (7881299347898369 : ℤ) * 2 ^ (-50 : ℤ) :=
    roundMag_eval 2 (-50) 7881299347898369 (by norm_num) (by norm_num) (by norm_num)
      (by norm_num) (by norm_num) (by norm_num)
  have e1 : F64.sub (.fin 7) (.fin 0) = .fin 7 := by
    rw [F64.sub_fin_fin 7 0 (Or.inl (by norm_num))]
    have e : (7 : ℚ) - 0 = 7 := by norm_num
    rw [e]
    exact round_fix (by norm_num) roundMag_seven (by norm_num)
  have e2 : F64.sub (.fin 100) (.fin 0) = .fin 100 := by
    rw [F64.sub_fin_fin 100 0 (Or.inl (by norm_num))]
    have e : (100 : ℚ) - 0 = 100 := by norm_num
    rw [e]
    exact round_fix (by norm_num) roundMag_hundred (by norm_num)
  have e3 : F64.round (7 / 100) = .fin ((5044031582654956 : ℤ) * 2 ^ (-56 : ℤ)) := by
    have h := round_pos_le (q := 7 / 100) (by norm_num) (by norm_num) roundMag_one
      (by norm_num)
    rw [h.1, r1]
  have e4 : F64.round ((5044031582654956 : ℤ) * 2 ^ (-56 : ℤ) * 100)
      = .fin ((7881299347898369 : ℤ) * 2 ^ (-50 : ℤ)) := by
    have h := round_pos_le (q := (5044031582654956 : ℤ) * 2 ^ (-56 : ℤ) * 100)
      (by norm_num) (by norm_num) roundMag_hundred (by norm_num)
    rw [h.1, r2]
  show F64.mul (F64.div (F64.sub (stringToF64 "7") (stringToF64 "0"))
    (F64.sub (stringToF64 "100") (stringToF64 "0"))) (.fin 100) = _
  rw [stringToF64_seven, stringToF64_zero, stringToF64_hundred, e1, e2,
    F64.div_fin_fin 7 100 (by norm_num) (by norm_num), e3,
    F64.mul_fin_fin _ 100 (by norm_num) (by norm_num), e4]

/-- With `min = 0`, `max = -0` and `value = 1` the difference `max - min` is the
negative zero and the code computes `-Infinity`. -/
theorem sliderPct_negZero : sliderPct negZeroSlider = .negInf := by
  have e1 : F64.sub (.fin 1) (.fin 0) = .fin 1 := by
    rw [F64.sub_fin_fin 1 0 (Or.inl (by norm_num))]
    have e : (1 : ℚ) - 0 = 1 := by norm_num
    rw [e]
    exact round_fix (by norm_num) roundMag_one (by norm_num)
  have e2 : F64.sub .negZero (.fin 0) = .negZero := by
    simp [F64.sub, F64.neg, F64.add, F64.isZero, F64.signBit, F64.zero]
  have e3 : F64.div (.fin 1) .negZero = .negInf := by
    simp [F64.div, F64.isFinite, F64.isZero, F64.signBit, F64.inf]
  have e4 : F64.mul .negInf (.fin 100) = .negInf := by
    have h : ¬ ((100 : ℚ) < 0) := by norm_num
    simp [F64.mul, F64.isFinite, F64.isZero, F64.signBit, F64.inf, h]
  show F64.mul (F64.div (F64.sub (stringToF64 "1") (stringToF64 "0"))
    (F64.sub (stringToF64 "-0") (stringToF64 "0"))) (.fin 100) = _
  rw [stringToF64_one, stringToF64_zero, stringToF64_negZero, e1, e2, e3, e4]

/-- Counterexample to C15 as stated: at the fan value `2^-70`, which lies in
`(0, 100]`, the duration computed in binary64 is exactly 3, so it is not below 3;
and at the smaller fan value `2^-71` the duration is 3 as well, so the duration
is not strictly decreasing. -/
theorem fan_animation_duration_counterexample :
    (0 : ℚ) < 1 / 2 ^ 70 ∧ (1 / 2 ^ 70 : ℚ) ≤ 100 ∧
    durationSeconds (.fin (1 / 2 ^ 70)) = .fin 3 ∧
    F64.lt (durationSeconds (.fin (1 / 2 ^ 70))) (.fin 3) = false ∧
    (0 : ℚ) < 1 / 2 ^ 71 ∧ (1 / 2 ^ 71 : ℚ) < 1 / 2 ^ 70 ∧
    durationSeconds (.fin (1 / 2 ^ 71)) = .fin 3 ∧
    F64.lt (durationSeconds (.fin (1 / 2 ^ 70))) (durationSeconds (.fin (1 / 2 ^ 71)))
      = false := by
  have h1 : durationSeconds (.fin (1 / 2 ^ 70)) = .fin 3 := by
    rw [(durationSeconds_small (1 / 2 ^ 70) (by norm_num) (by norm_num)).1, durationMag_tiny]
  have h2 : durationSeconds (.fin (1 / 2 ^ 71)) = .fin 3 := by
    rw [(durationSeconds_small (1 / 2 ^ 71) (by norm_num) (by norm_num)).1, durationMag_tinier]
  refine ⟨by norm_num, by norm_num, h1, ?_, by norm_num, by norm_num, h2, ?_⟩
  · rw [h1]; simp [F64.lt, F64.toRat]
  · rw [h1, h2]; simp [F64.lt, F64.toRat]

/-- C15 (amended).  In binary64, as a function of the number `val`, the duration
computed in `_renderFanControl` is 0 when `val > 0` does not hold (`val <= 0`,
both zeros and `-Infinity` included), and
`Math.max(0.5, 3 - (val / 100) * 2.5)` when `val > 0`; for `0 < val <= 100` it is
finite, lies in `[0.5, 3]` and does not increase with `val`; it is 0.5 at
`val = 100` and for every `val > 100`, `+Infinity` included. -/
theorem fan_animation_duration :
    (∀ val : F64, F64.lt (.fin 0) val = false → durationSeconds val = .fin 0) ∧
    (∀ q : ℚ, q ≤ 0 → durationSeconds (.fin q) = .fin 0) ∧
    durationSeconds .negZero = .fin 0 ∧
    durationSeconds .negInf = .fin 0 ∧
    (∀ val : F64, F64.lt (.fin 0) val = true →
      durationSeconds val = F64.max (.fin (1 / 2))
        (F64.sub (.fin 3) (F64.mul (F64.div val (.fin 100)) (.fin (5 / 2))))) ∧
    (∀ q : ℚ, 0 < q → q ≤ 100 →
      durationSeconds (.fin q) = .fin (durationMag q) ∧
      1 / 2 ≤ durationMag q ∧ durationMag q ≤ 3) ∧
    (∀ q1 q2 : ℚ, 0 < q1 → q1 ≤ q2 → q2 ≤ 100 → durationMag q2 ≤ durationMag q1) ∧
    durationSeconds (.fin 100) = .fin (1 / 2) ∧
    (∀ q : ℚ, 100 < q → durationSeconds (.fin q) = .fin (1 / 2)) ∧
    durationSeconds .posInf = .fin (1 / 2) := by
  have hzero : ∀ val : F64, F64.lt (.fin 0) val = false → durationSeconds val = .fin 0 := by
    intro val h
    simp [durationSeconds, h]
  refine ⟨hzero, ?_, ?_, ?_, ?_, durationSeconds_small, ?_, ?_, durationSeconds_large,
    durationSeconds_posInf⟩
  · intro q hq
    apply hzero
    have h : ¬ (0 < q) := not_lt.2 hq
    simp [F64.lt, F64.toRat, h]
  · exact hzero _ (by simp [F64.lt, F64.toRat])
  · exact hzero _ (by simp [F64.lt])
  · intro val h
    unfold durationSeconds
    simp only [h, if_true]
    rw [F64.sub_max_min]
  · intro q1 q2 h0 h12 h100
    exact durationMag_antitone h0 h12 h100
  · rw [(durationSeconds_small 100 (by norm_num) (by norm_num)).1, durationMag_hundred]

/-- Instances of the amended C15: fan value 0 gives no animation; 46 gives
1.8499999999999999, the binary64 number `8331659310635417 * 2^-52`; 150 gives
0.5; and 80 does not spin slower than 50. -/
theorem fan_animation_duration_witness :
    durationSeconds (.fin 0) = .fin 0 ∧
    durationSeconds (.fin 46) = .fin (durationMag 46) ∧
    durationMag 46 = (8331659310635417 : ℤ) * 2 ^ (-52 : ℤ) ∧
    durationSeconds (.fin 150) = .fin (1 / 2) ∧
    durationMag 80 ≤ durationMag 50 :=
  ⟨fan_animation_duration.2.1 0 (le_refl 0),
   (fan_animation_duration.2.2.2.2.2.1 46 (by norm_num) (by norm_num)).1,
   durationMag_46,
   fan_animation_duration.2.2.2.2.2.2.2.2.1 150 (by norm_num),
   fan_animation_duration.2.2.2.2.2.2.1 50 80 (by norm_num) (by norm_num) (by norm_num)⟩

/-- Counterexample to C16 as stated: with `min = max = value = 5` the method
still assigns the gradient, and the percentage written is NaN; it is not a zero
and the fill is not left unassigned. -/
theorem updateSliderBackground_equal_bounds_counterexample :
    stringToF64 equalBoundsSlider.max = stringToF64 equalBoundsSlider.min ∧
    stringToF64 equalBoundsSlider.value = stringToF64 equalBoundsSlider.min ∧
    equalBoundsSlider.background = none ∧
    (_updateSliderBackground (some equalBoundsSlider)).map (fun s => s.background)
      = some (some .nan) ∧
    (_updateSliderBackground (some equalBoundsSlider)).map (fun s => s.background)
      ≠ some (some (.fin 0)) ∧
    (_updateSliderBackground (some equalBoundsSlider)).map (fun s => s.background)
      ≠ some (some .negZero) ∧
    (_updateSliderBackground (some equalBoundsSlider)).map (fun s => s.background)
      ≠ some none := by
  have h : sliderPct equalBoundsSlider = .nan := by
    show F64.mul (F64.div (F64.sub (stringToF64 "5") (stringToF64 "5"))
      (F64.sub (stringToF64 "5") (stringToF64 "5"))) (.fin 100) = _
    rw [stringToF64_five]
    exact pct_nan rfl rfl rfl rfl rfl
  have e : (_updateSliderBackground (some equalBoundsSlider)).map (fun s => s.background)
      = some (some .nan) := by
    show some (some (sliderPct equalBoundsSlider)) = _
    rw [h]
  refine ⟨rfl, rfl, rfl, e, ?_, ?_, ?_⟩
  · rw [e]; decide
  · rw [e]; decide
  · rw [e]; decide

/-- C16 (amended).  `_updateSliderBackground` always returns (a missing slider
is ignored) and always assigns the gradient of an existing slider, with
`pct = ((val - min) / (max - min)) * 100` computed in binary64 from the numbers
read from the slider.  When these are finite with `min < max`,
`min <= val <= max`, and `max - min` does not overflow, `pct` is a finite number
with `0 <= pct <= 100`.  When they are finite and `max`, `min` and `val` are
equal, `pct` is NaN (and the gradient is still assigned). -/
theorem updateSliderBackground_fill (s : Slider) :
    _updateSliderBackground none = none ∧
    _updateSliderBackground (some s) = some { s with background := some (sliderPct s) } ∧
    sliderPct s = F64.mul (F64.div (F64.sub (stringToF64 s.value) (stringToF64 s.min))
      (F64.sub (stringToF64 s.max) (stringToF64 s.min))) (.fin 100) ∧
    ((stringToF64 s.min).isFinite = true → (stringToF64 s.max).isFinite = true →
      (stringToF64 s.value).isFinite = true →
      (stringToF64 s.min).toRat < (stringToF64 s.max).toRat →
      (stringToF64 s.min).toRat ≤ (stringToF64 s.value).toRat →
      (stringToF64 s.value).toRat ≤ (stringToF64 s.max).toRat →
      F64.sub (stringToF64 s.max) (stringToF64 s.min) ≠ .posInf →
      (sliderPct s).isFinite = true ∧ 0 ≤ (sliderPct s).toRat ∧ (sliderPct s).toRat ≤ 100) ∧
    ((stringToF64 s.min).isFinite = true → (stringToF64 s.max).isFinite = true →
      (stringToF64 s.value).isFinite = true →
      (stringToF64 s.max).toRat = (stringToF64 s.min).toRat →
      (stringToF64 s.value).toRat = (stringToF64 s.min).toRat →
      sliderPct s = .nan) := by
  refine ⟨rfl, rfl, rfl, ?_, ?_⟩
  · intro ha hb hv hab hav hvb hover
    exact pct_within ha hb hv (stringToF64_onGrid _) (stringToF64_onGrid _) hab hav hvb hover
  · intro ha hb hv hba hva
    exact pct_nan ha hb hv hba hva

/-- Instance of the amended C16: the fan slider (0 to 100) at 7 gets a finite
percentage between 0 and 100; it is 7.000000000000001, the binary64 result of
`(7 / 100) * 100`. -/
theorem updateSliderBackground_fill_witness :
    stringToF64 sevenSlider.min = .fin 0 ∧ stringToF64 sevenSlider.max = .fin 100 ∧
    stringToF64 sevenSlider.value = .fin 7 ∧
    F64.sub (stringToF64 sevenSlider.max) (stringToF64 sevenSlider.min) = .fin 100 ∧
    ((sliderPct sevenSlider).isFinite = true ∧ 0 ≤ (sliderPct sevenSlider).toRat ∧
      (sliderPct sevenSlider).toRat ≤ 100) ∧
    sliderPct sevenSlider = .fin ((7881299347898369 : ℤ) * 2 ^ (-50 : ℤ)) := by
  have hmin : stringToF64 sevenSlider.min = .fin 0 := stringToF64_zero
  have hmax : stringToF64 sevenSlider.max = .fin 100 := stringToF64_hundred
  have hval : stringToF64 sevenSlider.value = .fin 7 := stringToF64_seven
  have hsub : F64.sub (stringToF64 sevenSlider.max) (stringToF64 sevenSlider.min) = .fin 100 := by
    rw [hmax, hmin, F64.sub_fin_fin 100 0 (Or.inl (by norm_num))]
    have e : (100 : ℚ) - 0 = 100 := by norm_num
    rw [e]
    exact round_fix (by norm_num) roundMag_hundred (by norm_num)
  exact ⟨hmin, hmax, hval, hsub,
    (updateSliderBackground_fill sevenSlider).2.2.2.1
      (by rw [hmin]; rfl) (by rw [hmax]; rfl) (by rw [hval]; rfl)
      (by rw [hmin, hmax]; simp [F64.toRat])
      (by rw [hmin, hval]; simp [F64.toRat])
      (by rw [hval, hmax]; simp only [F64.toRat]; norm_num)
      (by rw [hsub]; exact fun h => F64.noConfusion h),
    sliderPct_seven⟩

end AtreaCard
